import Mathlib

/-!
# Electron browser-process glue: a shallow embedding

The definitions below follow the C++ sources under `shell/browser`.  Calls into
the host engine and the operating system (the path service, `base::FilePath`,
the event emitter, the navigation controller, the print manager, the Win32
window functions, the window observers) are not part of this repository; they
appear either as parameters (oracles) of the embedded functions or as entries
of an effect trace that the embedded function returns.
-/

namespace electron

/-! ## `shell/browser/atom_paths.h` : the key enumeration -/

def PATH_START : Int := 11000
def DIR_APP_DATA : Int := PATH_START
def DIR_USER_DATA : Int := DIR_APP_DATA + 1
def DIR_CACHE : Int := DIR_USER_DATA + 1
def DIR_USER_CACHE : Int := DIR_CACHE + 1
def DIR_APP_LOGS : Int := DIR_USER_CACHE + 1
def PATH_END : Int := DIR_APP_LOGS + 1

/-- Build configuration and engine services used by `atom_paths.cc`.
`P` is the type of `base::FilePath` values.  `Append p c` stands for
`p.Append(base::FilePath::FromUTF8Unsafe(c))`; `base_DIR_APP_DATA` and
`base_DIR_CACHE` are the engine's own keys `base::DIR_APP_DATA` and
`base::DIR_CACHE`. -/
structure PathEnv (P : Type) where
  use_x11 : Bool
  os_posix : Bool
  base_DIR_APP_DATA : Int
  base_DIR_CACHE : Int
  Append : P → String → P
  getXdgConfigPath : P
  GetApplicationName : String

/-- The call `base::PathService::Get(key, result)` against a path-service state
`Get`: on success the out-parameter receives the path, on failure it is left
alone. -/
def PathServiceGet {P : Type} (Get : Int → Option P) (key : Int) (result : P) : Bool × P :=
  match Get key with
  | none => (false, result)
  | some p => (true, p)

/-- The helper `getDirWithChild(key, result, child)` of `atom_paths.cc`. -/
def getDirWithChild {P : Type} (env : PathEnv P) (Get : Int → Option P)
    (key : Int) (result : P) (child : String) : Bool × P :=
  match PathServiceGet Get key result with
  | (false, _) => (false, result)
  | (true, tmp) => (true, env.Append tmp child)

/-- The provider `AtomPathProvider(key, result)`: the returned pair is the
boolean result and the value of `*result` afterwards. -/
def AtomPathProvider {P : Type} (env : PathEnv P) (Get : Int → Option P)
    (key : Int) (result : P) : Bool × P :=
  if key = DIR_APP_DATA then
    if !env.use_x11 then PathServiceGet Get env.base_DIR_APP_DATA result
    else (true, env.getXdgConfigPath)
  else if key = DIR_CACHE then
    if env.os_posix then PathServiceGet Get env.base_DIR_CACHE result
    else PathServiceGet Get env.base_DIR_APP_DATA result
  else if key = DIR_USER_DATA then
    getDirWithChild env Get DIR_APP_DATA result env.GetApplicationName
  else if key = DIR_USER_CACHE then
    getDirWithChild env Get DIR_CACHE result env.GetApplicationName
  else if key = DIR_APP_LOGS then
    getDirWithChild env Get DIR_USER_DATA result "logs"
  else (false, result)

/-- What a path service that asks a provider for `key` hands back: the
provider's path when it reports success, nothing otherwise. -/
def providerAnswer {P : Type} (r : Bool × P) : Option P :=
  if r.1 then some r.2 else none

/-! ### A concrete instance used to exercise the definitions -/

/-- Paths as component lists, `Append` adding one component. -/
def sampleEnv : PathEnv (List String) where
  use_x11 := false
  os_posix := true
  base_DIR_APP_DATA := 5
  base_DIR_CACHE := 6
  Append := fun p c => p ++ [c]
  getXdgConfigPath := ["home", ".config"]
  GetApplicationName := "Electron"

/-- A path-service state: the engine keys 5 and 6 resolve, and the electron
keys resolve to what the provider computes from them. -/
def sampleGet (k : Int) : Option (List String) :=
  if k = 5 then some ["appdata"]
  else if k = 6 then some ["cache"]
  else if k = 11000 then some ["appdata"]
  else if k = 11001 then some ["appdata", "Electron"]
  else if k = 11002 then some ["cache"]
  else if k = 11003 then some ["cache", "Electron"]
  else if k = 11004 then some ["appdata", "Electron", "logs"]
  else none

/-! ## `shell/browser/osr/osr_web_contents_view.cc` -/

/-- The value type `gfx::Size`. -/
structure Size where
  width : Int
  height : Int
  deriving DecidableEq, Repr

/-- An `OffScreenWebContentsView` together with the part of its surroundings
that `SetNativeWindow`, `OnWindowResize`, `OnWindowClosed` and `GetSize` touch.
Native windows are named by numbers: `native_window_` is the pointer member
(`none` for `nullptr`), `windowSize w` is what `w->GetSize()` returns,
`observed` lists the windows on which this view is registered as an observer,
and `view` is `GetView()`: `none` when it is null, otherwise the size last
handed to the render-widget-host view's `SetSize`. -/
structure OffScreenWebContentsView where
  native_window_ : Option Nat
  windowSize : Nat → Size
  observed : List Nat
  view : Option Size

namespace OffScreenWebContentsView

/-- The method `OffScreenWebContentsView::GetSize()`. -/
def GetSize (self : OffScreenWebContentsView) : Size :=
  match self.native_window_ with
  | some w => self.windowSize w
  | none => ⟨1, 1⟩

/-- The method `OffScreenWebContentsView::OnWindowResize()`. -/
def OnWindowResize (self : OffScreenWebContentsView) : OffScreenWebContentsView :=
  match self.view with
  | some _ => { self with view := some self.GetSize }
  | none => self

/-- The method `OffScreenWebContentsView::SetNativeWindow(window)`. -/
def SetNativeWindow (self : OffScreenWebContentsView) (window : Option Nat) :
    OffScreenWebContentsView :=
  let s1 : OffScreenWebContentsView :=
    match self.native_window_ with
    | some w => { self with observed := self.observed.erase w }
    | none => self
  let s2 : OffScreenWebContentsView := { s1 with native_window_ := window }
  let s3 : OffScreenWebContentsView :=
    match s2.native_window_ with
    | some w => { s2 with observed := w :: s2.observed }
    | none => s2
  s3.OnWindowResize

/-- The method `OffScreenWebContentsView::OnWindowClosed()`. -/
def OnWindowClosed (self : OffScreenWebContentsView) : OffScreenWebContentsView :=
  match self.native_window_ with
  | some w => { self with observed := self.observed.erase w, native_window_ := none }
  | none => self

end OffScreenWebContentsView

/-- A view attached to window 3 (800x600) with a live render-widget-host view. -/
def sampleView : OffScreenWebContentsView where
  native_window_ := some 3
  windowSize := fun w => if w = 3 then ⟨800, 600⟩ else ⟨0, 0⟩
  observed := [3]
  view := some ⟨800, 600⟩

/-! ## `shell/browser/api/atom_api_web_contents.cc` : data -/

/-- The engine's `GURL`, reduced to what the binding reads: validity and the
stored spec. -/
structure GURL where
  is_valid : Bool
  possibly_invalid_spec : String
  deriving DecidableEq, Repr

/-- The accessor `GURL::spec()`: the stored spec of a valid URL, the empty
string otherwise. -/
def GURL.spec (u : GURL) : String :=
  if u.is_valid then u.possibly_invalid_spec else ""

/-- The enumeration `WindowOpenDisposition` of the engine. -/
inductive WindowOpenDisposition
  | UNKNOWN | CURRENT_TAB | SINGLETON_TAB | NEW_FOREGROUND_TAB | NEW_BACKGROUND_TAB
  | NEW_POPUP | NEW_WINDOW | SAVE_TO_DISK | OFF_THE_RECORD | IGNORE_ACTION
  deriving DecidableEq, Repr

/-- The enumeration `WebContents::Type`. -/
inductive WebContentsType
  | BACKGROUND_PAGE | BROWSER_WINDOW | BROWSER_VIEW | REMOTE | WEB_VIEW | OFF_SCREEN
  deriving DecidableEq, Repr

/-- A C++ `double`: the IEEE special values, or a finite value given by the
rational number it denotes. -/
inductive Double
  | nan
  | negInf
  | posInf
  | finite (q : ℚ)
  deriving DecidableEq

namespace Double

/-- The comparison `a < b` on doubles; false as soon as one side is NaN. -/
def lt : Double → Double → Bool
  | nan, _ => false
  | _, nan => false
  | negInf, negInf => false
  | negInf, _ => true
  | posInf, _ => false
  | finite _, negInf => false
  | finite _, posInf => true
  | finite a, finite b => decide (a < b)

/-- The comparison `a > b`, which C++ evaluates as `b < a`. -/
def gt (a b : Double) : Bool := lt b a

/-- The comparison `a >= b` on doubles; false as soon as one side is NaN. -/
def ge : Double → Double → Bool
  | nan, _ => false
  | _, nan => false
  | _, negInf => true
  | negInf, _ => false
  | posInf, _ => true
  | finite _, posInf => false
  | finite a, finite b => decide (b ≤ a)

/-- The literal `0.0`. -/
def zero : Double := finite 0

/-- The constant `std::numeric_limits<double>::epsilon()`, which is 2^-52. -/
def epsilon : Double := finite (1 / 2 ^ 52)

end Double

/-- An argument handed to `Emit`. -/
inductive Arg
  | int (i : Int)
  | str (s : String)
  | bool (b : Bool)
  | url (u : GURL)
  | disposition (d : WindowOpenDisposition)
  deriving DecidableEq

/-- The struct `content::Referrer`; `isDefaultPolicy` records the policy
`network::mojom::ReferrerPolicy::kDefault`. -/
structure Referrer where
  url : GURL
  isDefaultPolicy : Bool
  deriving DecidableEq

inductive LoadType
  | LOAD_TYPE_DEFAULT | LOAD_TYPE_HTTP_POST | LOAD_TYPE_DATA
  deriving DecidableEq

inductive ReloadType
  | NONE | BYPASSING_CACHE
  deriving DecidableEq

inductive PageTransition
  | PAGE_TRANSITION_LINK | PAGE_TRANSITION_TYPED
  deriving DecidableEq

inductive UserAgentOverrideOption
  | UA_OVERRIDE_INHERIT | UA_OVERRIDE_FALSE | UA_OVERRIDE_TRUE
  deriving DecidableEq

/-- The struct `content::NavigationController::LoadURLParams`, with the fields
`LoadURL` assigns.  Request bodies are named by numbers; absent optional values
are `none`. -/
structure LoadURLParams where
  url : GURL
  referrer : Option Referrer
  extra_headers : String
  post_data : Option Nat
  load_type : LoadType
  base_url_for_data_url : Option GURL
  reload_type : ReloadType
  transition_type : PageTransition
  should_clear_history_list : Bool
  override_user_agent : UserAgentOverrideOption
  deriving DecidableEq

/-- The constructor `LoadURLParams(url)`: every other field at its default. -/
def LoadURLParams.init (url : GURL) : LoadURLParams where
  url := url
  referrer := none
  extra_headers := ""
  post_data := none
  load_type := .LOAD_TYPE_DEFAULT
  base_url_for_data_url := none
  reload_type := .NONE
  transition_type := .PAGE_TRANSITION_LINK
  should_clear_history_list := false
  override_user_agent := .UA_OVERRIDE_INHERIT

/-- The options dictionary passed to `LoadURL`.  Each field is the outcome of
the matching `options.Get(key, &out)`: `some v` when the key is present and
converts to the requested C++ type, `none` otherwise.  `httpReferrer` is read
twice, first as a `content::Referrer`, then as a `GURL`. -/
structure LoadURLOptions where
  httpReferrerAsReferrer : Option Referrer
  httpReferrerAsGURL : Option GURL
  userAgent : Option String
  extraHeaders : Option String
  postData : Option Nat
  baseURLForDataURL : Option GURL
  reloadIgnoringCache : Option Bool

/-- A string-keyed dictionary (`base::DictionaryValue`) holding string values. -/
abbrev DictionaryValue := List (String × String)

/-- The method `SetStringKey(key, value)`: insert or overwrite. -/
def DictionaryValue.SetStringKey (d : DictionaryValue) (key value : String) :
    DictionaryValue :=
  (key, value) :: d.filter (fun e => e.1 != key)

/-- The method `FindStringKey(key)`. -/
def DictionaryValue.FindStringKey (d : DictionaryValue) (key : String) : Option String :=
  d.lookup key

/-- A `content::RenderFrameHost` as the binding sees it. -/
structure RenderFrameHost where
  processID : Int
  routingID : Int
  hasSelection : Bool
  deriving DecidableEq

/-- The class `net::HttpResponseHeaders` as the binding sees it. -/
structure HttpResponseHeaders where
  statusText : String
  response_code : Int
  deriving DecidableEq

/-- A `content::NavigationHandle`: one field per accessor that
`DidFinishNavigation` calls. -/
structure NavigationHandle where
  HasCommitted : Bool
  IsInMainFrame : Bool
  GetRenderFrameHost : Option RenderFrameHost
  IsErrorPage : Bool
  GetURL : GURL
  IsSameDocument : Bool
  GetResponseHeaders : Option HttpResponseHeaders
  GetNetErrorCode : Int

/-- The struct `content::OpenURLParams`, with the fields `OpenURLFromTab`
reads. -/
structure OpenURLParams where
  url : GURL
  disposition : WindowOpenDisposition
  deriving DecidableEq

/-- Calls that leave the binding, in the order they are made. -/
inductive Effect
  | Emit (name : String) (args : List Arg)
  | SetUserAgentOverride (user_agent : String) (override_in_new_tabs : Bool)
  | DiscardNonCommittedEntries
  | LoadURLWithParams (params : LoadURLParams)
  | SetBackgroundColor (color : Nat)
  | ThrowError (message : String)
  | ZoomControllerSetZoomLevel (level : Double)
  | RunPrintCallback (callback : Nat) (success : Bool) (reason : String)
  | PrintNow (rfh : RenderFrameHost) (routing_id : Int) (silent : Bool)
      (settings : DictionaryValue) (callback : Option Nat)
  deriving DecidableEq

/-- Whether the trace contains an `Emit` of the event `name`. -/
def emits (name : String) (trace : List Effect) : Bool :=
  trace.any fun e =>
    match e with
    | .Emit n _ => n == name
    | _ => false

/-- How often `PrintNow` is called in the trace. -/
def countPrintNow (trace : List Effect) : Nat :=
  trace.countP fun e =>
    match e with
    | .PrintNow .. => true
    | _ => false

/-- How often a print callback is run in the trace. -/
def countRunPrintCallback (trace : List Effect) : Nat :=
  trace.countP fun e =>
    match e with
    | .RunPrintCallback .. => true
    | _ => false

/-- Constants and services of the host engine (and of helpers of this
repository outside the excerpt) that the embedded `WebContents` methods use:
`url::kMaxURLChars`, the `net::Error` codes, `net::ErrorToShortString`,
`GURL::GetAsReferrer`, `ParseHexColor`, `SK_ColorTRANSPARENT`,
`content::ZoomFactorToZoomLevel`, `printing::kSettingDeviceName`, and the
platform's printer lookup behind `IsDeviceNameValid`. -/
structure Engine where
  kMaxURLChars : Nat
  ERR_INVALID_URL : Int
  ERR_ABORTED : Int
  ErrorToShortString : Int → String
  GetAsReferrer : GURL → GURL
  ParseHexColor : String → Nat
  SK_ColorTRANSPARENT : Nat
  ZoomFactorToZoomLevel : Double → Double
  kSettingDeviceName : String
  os_macosx : Bool
  os_win : Bool
  PMPrinterCreateFromPrinterID : String → Bool
  OpenPrinterWithName : String → Bool

/-- The state of a `WebContents` that the embedded methods read, with the
engine objects they consult.  `destroyed` is `IsDestroyed()`;
`renderWidgetHostView` says whether `GetRenderWidgetHostView()` is non-null
(once a load was started); `backgroundColor` is the `kBackgroundColor` web
preference when set; `focusedFrame` and `mainFrame` are `GetFocusedFrame()` and
`GetMainFrame()`. -/
structure WebContents where
  type_ : WebContentsType
  destroyed : Bool
  renderWidgetHostView : Bool
  backgroundColor : Option String
  focusedFrame : Option RenderFrameHost
  mainFrame : RenderFrameHost

/-- What the script listeners of an event do when it is emitted:
`preventDefault` is the value `Emit` returns, `destroys` says whether a
listener destroys the `WebContents`. -/
structure Listeners where
  preventDefault : String → List Arg → Bool
  destroys : String → List Arg → Bool

/-! ## `shell/browser/api/atom_api_web_contents.cc` : methods -/

namespace WebContents

/-- The method `WebContents::IsGuest()`. -/
def IsGuest (self : WebContents) : Bool :=
  self.type_ == WebContentsType.WEB_VIEW

/-- The method `WebContents::IsDestroyed()`. -/
def IsDestroyed (self : WebContents) : Bool :=
  self.destroyed

/-- One call `Emit(name, args...)` with its listeners: the object afterwards,
the value `Emit` returns, and the trace entry. -/
def Emit (l : Listeners) (self : WebContents) (name : String) (args : List Arg) :
    WebContents × Bool × List Effect :=
  ({ self with destroyed := self.destroyed || l.destroys name args },
   l.preventDefault name args,
   [Effect.Emit name args])

/-- The method `WebContents::LoadURL(url, options)`, as the trace of calls it
makes. -/
def LoadURL (e : Engine) (self : WebContents) (url : GURL) (options : LoadURLOptions) :
    List Effect :=
  if !url.is_valid || decide (url.spec.utf8ByteSize > e.kMaxURLChars) then
    [Effect.Emit "did-fail-load"
      [Arg.int e.ERR_INVALID_URL, Arg.str (e.ErrorToShortString e.ERR_INVALID_URL),
       Arg.str url.possibly_invalid_spec, Arg.bool true]]
  else
    let params := LoadURLParams.init url
    let params :=
      match options.httpReferrerAsReferrer with
      | some r => { params with referrer := some r }
      | none =>
        match options.httpReferrerAsGURL with
        | some http_referrer =>
          { params with referrer := some ⟨e.GetAsReferrer http_referrer, true⟩ }
        | none => params
    let t1 : List Effect :=
      match options.userAgent with
      | some user_agent => [Effect.SetUserAgentOverride user_agent false]
      | none => []
    let params :=
      match options.extraHeaders with
      | some extra_headers => { params with extra_headers := extra_headers }
      | none => params
    let params :=
      match options.postData with
      | some body =>
        { params with post_data := some body, load_type := LoadType.LOAD_TYPE_HTTP_POST }
      | none => params
    let params :=
      match options.baseURLForDataURL with
      | some base_url_for_data_url =>
        { params with base_url_for_data_url := some base_url_for_data_url,
                      load_type := LoadType.LOAD_TYPE_DATA }
      | none => params
    let params :=
      match options.reloadIgnoringCache with
      | some true => { params with reload_type := ReloadType.BYPASSING_CACHE }
      | _ => params
    let params :=
      { params with transition_type := PageTransition.PAGE_TRANSITION_TYPED,
                    should_clear_history_list := true,
                    override_user_agent := UserAgentOverrideOption.UA_OVERRIDE_TRUE }
    let t2 : List Effect := [Effect.DiscardNonCommittedEntries, Effect.LoadURLWithParams params]
    let t3 : List Effect :=
      if self.renderWidgetHostView then
        match self.backgroundColor with
        | some color_name => [Effect.SetBackgroundColor (e.ParseHexColor color_name)]
        | none => [Effect.SetBackgroundColor e.SK_ColorTRANSPARENT]
      else []
    t1 ++ t2 ++ t3

/-- The method `WebContents::DidFinishNavigation(navigation_handle)`, as the
trace of calls it makes. -/
def DidFinishNavigation (e : Engine) (self : WebContents)
    (navigation_handle : NavigationHandle) : List Effect :=
  if !navigation_handle.HasCommitted then []
  else
    let is_main_frame := navigation_handle.IsInMainFrame
    let frame_host := navigation_handle.GetRenderFrameHost
    let (frame_process_id, frame_routing_id) : Int × Int :=
      match frame_host with
      | some fh => (fh.processID, fh.routingID)
      | none => (-1, -1)
    if !navigation_handle.IsErrorPage then
      let url := navigation_handle.GetURL
      let is_same_document := navigation_handle.IsSameDocument
      let t1 : List Effect :=
        if is_same_document then
          [Effect.Emit "did-navigate-in-page"
            [Arg.url url, Arg.bool is_main_frame, Arg.int frame_process_id,
             Arg.int frame_routing_id]]
        else
          let http_response := navigation_handle.GetResponseHeaders
          let (http_status_text, http_response_code) : String × Int :=
            match http_response with
            | some r => (r.statusText, r.response_code)
            | none => ("", -1)
          [Effect.Emit "did-frame-navigate"
            [Arg.url url, Arg.int http_response_code, Arg.str http_status_text,
             Arg.bool is_main_frame, Arg.int frame_process_id, Arg.int frame_routing_id]]
          ++ (if is_main_frame then
                [Effect.Emit "did-navigate"
                  [Arg.url url, Arg.int http_response_code, Arg.str http_status_text]]
              else [])
      let t2 : List Effect :=
        if self.IsGuest then [Effect.Emit "load-commit" [Arg.url url, Arg.bool is_main_frame]]
        else []
      t1 ++ t2
    else
      let url := navigation_handle.GetURL
      let code := navigation_handle.GetNetErrorCode
      let description := e.ErrorToShortString code
      [Effect.Emit "did-fail-provisional-load"
        [Arg.int code, Arg.str description, Arg.url url, Arg.bool is_main_frame,
         Arg.int frame_process_id, Arg.int frame_routing_id]]
      ++ (if code ≠ e.ERR_ABORTED then
            [Effect.Emit "did-fail-load"
              [Arg.int code, Arg.str description, Arg.url url, Arg.bool is_main_frame,
               Arg.int frame_process_id, Arg.int frame_routing_id]]
          else [])

/-- What `OpenURLFromTab` returns: `nullptr`, or whatever the call
`CommonWebContentsDelegate::OpenURLFromTab(source, params)` returns. -/
inductive OpenURLResult
  | nullptr
  | delegated (source : Nat) (params : OpenURLParams)
  deriving DecidableEq

/-- The method `WebContents::OpenURLFromTab(source, params)`: the trace of
`Emit` calls and the returned value. -/
def OpenURLFromTab (l : Listeners) (self : WebContents) (source : Nat)
    (params : OpenURLParams) : List Effect × OpenURLResult :=
  if params.disposition ≠ WindowOpenDisposition.CURRENT_TAB then
    if self.type_ = WebContentsType.BROWSER_WINDOW ∨ self.type_ = WebContentsType.OFF_SCREEN then
      let r := Emit l self "-new-window"
        [Arg.url params.url, Arg.str "", Arg.disposition params.disposition]
      (r.2.2, OpenURLResult.nullptr)
    else
      let r := Emit l self "new-window"
        [Arg.url params.url, Arg.str "", Arg.disposition params.disposition]
      (r.2.2, OpenURLResult.nullptr)
  else
    let r := Emit l self "will-navigate" [Arg.url params.url]
    if r.2.1 then (r.2.2, OpenURLResult.nullptr)
    else if r.1.IsDestroyed then (r.2.2, OpenURLResult.nullptr)
    else (r.2.2, OpenURLResult.delegated source params)

/-- The method `WebContents::SetZoomLevel(level)`. -/
def SetZoomLevel (level : Double) : List Effect :=
  [Effect.ZoomControllerSetZoomLevel level]

/-- The method `WebContents::SetZoomFactor(args, factor)`. -/
def SetZoomFactor (e : Engine) (factor : Double) : List Effect :=
  if Double.lt factor Double.epsilon then
    [Effect.ThrowError "'zoomFactor' must be a double greater than 0.0"]
  else
    let level := e.ZoomFactorToZoomLevel factor
    SetZoomLevel level

/-- The helper `IsDeviceNameValid(device_name)`. -/
def IsDeviceNameValid (e : Engine) (device_name : String) : Bool :=
  if e.os_macosx then e.PMPrinterCreateFromPrinterID device_name
  else if e.os_win then e.OpenPrinterWithName device_name
  else true

/-- The method `WebContents::OnGetDefaultPrinter(print_settings,
print_callback, device_name, silent, default_printer)`; print callbacks are
named by numbers, `none` being a null callback. -/
def OnGetDefaultPrinter (e : Engine) (self : WebContents)
    (print_settings : DictionaryValue) (print_callback : Option Nat)
    (device_name : String) (silent : Bool) (default_printer : String) : List Effect :=
  let printer_name := if device_name.isEmpty then default_printer else device_name
  if printer_name.isEmpty || !IsDeviceNameValid e printer_name then
    match print_callback with
    | some cb => [Effect.RunPrintCallback cb false "no valid printers available"]
    | none => []
  else
    let print_settings := print_settings.SetStringKey e.kSettingDeviceName printer_name
    let rfh :=
      match self.focusedFrame with
      | some focused_frame =>
        if focused_frame.hasSelection then focused_frame else self.mainFrame
      | none => self.mainFrame
    [Effect.PrintNow rfh rfh.routingID silent print_settings print_callback]

end WebContents

/-- An engine instance for exercising the definitions: a small URL limit, the
usual `net::Error` numbers, and a Windows printer lookup that knows one
printer. -/
def sampleEngine : Engine where
  kMaxURLChars := 8
  ERR_INVALID_URL := -300
  ERR_ABORTED := -3
  ErrorToShortString := fun c =>
    if c = -300 then "ERR_INVALID_URL" else if c = -3 then "ERR_ABORTED"
    else if c = -105 then "ERR_NAME_NOT_RESOLVED" else "ERR_FAILED"
  GetAsReferrer := fun u => u
  ParseHexColor := fun _ => 0xFFFFFFFF
  SK_ColorTRANSPARENT := 0
  ZoomFactorToZoomLevel := fun f => f
  kSettingDeviceName := "deviceName"
  os_macosx := false
  os_win := true
  PMPrinterCreateFromPrinterID := fun _ => false
  OpenPrinterWithName := fun n => n == "Office"

/-- A browser-window `WebContents`. -/
def sampleContents : WebContents where
  type_ := WebContentsType.BROWSER_WINDOW
  destroyed := false
  renderWidgetHostView := true
  backgroundColor := none
  focusedFrame := none
  mainFrame := ⟨7, 1, false⟩

/-- The same contents as a guest (`<webview>`). -/
def sampleGuest : WebContents := { sampleContents with type_ := WebContentsType.WEB_VIEW }

/-- An empty options dictionary. -/
def noOptions : LoadURLOptions := ⟨none, none, none, none, none, none, none⟩

/-- Listeners that neither prevent the default nor destroy anything. -/
def quietListeners : Listeners := ⟨fun _ _ => false, fun _ _ => false⟩

/-! ### Abbreviations used in the statements about `DidFinishNavigation` -/

/-- The process id reported for a navigation: that of its render frame host,
or -1 without one. -/
def frameProcessId (h : NavigationHandle) : Int :=
  (h.GetRenderFrameHost.map fun fh => fh.processID).getD (-1)

/-- The routing id reported for a navigation: that of its render frame host,
or -1 without one. -/
def frameRoutingId (h : NavigationHandle) : Int :=
  (h.GetRenderFrameHost.map fun fh => fh.routingID).getD (-1)

/-- The HTTP response code reported for a navigation: -1 without response
headers. -/
def httpResponseCode (h : NavigationHandle) : Int :=
  (h.GetResponseHeaders.map fun r => r.response_code).getD (-1)

/-- The HTTP status text reported for a navigation: empty without response
headers. -/
def httpStatusText (h : NavigationHandle) : String :=
  (h.GetResponseHeaders.map fun r => r.statusText).getD ""

/-- A committed main-frame navigation to an error page, net error -105. -/
def sampleErrorNavigation : NavigationHandle where
  HasCommitted := true
  IsInMainFrame := true
  GetRenderFrameHost := some ⟨7, 1, false⟩
  IsErrorPage := true
  GetURL := ⟨true, "http://a/"⟩
  IsSameDocument := false
  GetResponseHeaders := none
  GetNetErrorCode := -105

/-- A committed main-frame navigation without response headers or frame host. -/
def sampleNavigation : NavigationHandle where
  HasCommitted := true
  IsInMainFrame := true
  GetRenderFrameHost := none
  IsErrorPage := false
  GetURL := ⟨true, "http://a/"⟩
  IsSameDocument := false
  GetResponseHeaders := none
  GetNetErrorCode := 0

/-! ## `shell/browser/native_window_views_win.cc` : data -/

/-- The Win32 struct `RECT`. -/
structure RECT where
  left : Int
  top : Int
  right : Int
  bottom : Int
  deriving DecidableEq, Repr

/-- The Win32 struct `POINT`. -/
structure POINT where
  x : Int
  y : Int
  deriving DecidableEq, Repr

/-- The value type `gfx::Rect`. -/
structure Rect where
  x : Int
  y : Int
  width : Int
  height : Int
  deriving DecidableEq, Repr

/-! Window-message numbers and notification codes, with the values the Win32
headers give them. -/

def WM_CREATE : Nat := 0x0001
def WM_SIZE : Nat := 0x0005
def WM_ENDSESSION : Nat := 0x0016
def WM_GETMINMAXINFO : Nat := 0x0024
def WM_GETOBJECT : Nat := 0x003D
def WM_COMMAND : Nat := 0x0111
def WM_MOUSEMOVE : Nat := 0x0200
def WM_PARENTNOTIFY : Nat := 0x0210
def WM_SIZING : Nat := 0x0214
def WM_MOVING : Nat := 0x0216
def WM_MOUSELEAVE : Nat := 0x02A3
def THBN_CLICKED : Nat := 0x1800
def SIZE_RESTORED : Nat := 0
def SIZE_MINIMIZED : Nat := 1
def SIZE_MAXIMIZED : Nat := 2

/-- The value `static_cast<DWORD>(OBJID_CLIENT)`, `OBJID_CLIENT` being
`(LONG)0xFFFFFFFC`. -/
def OBJID_CLIENT_DWORD : Nat := 0xFFFFFFFC

/-- The Win32 macro `HIWORD` on a `WPARAM`: bits 16 to 31. -/
def HIWORD (w : Nat) : Nat := (w / 2 ^ 16) % 2 ^ 16

/-- The Win32 macro `LOWORD` on a `WPARAM`: bits 0 to 15. -/
def LOWORD (w : Nat) : Nat := w % 2 ^ 16

/-- The conversion `static_cast<DWORD>(l_param)`. -/
def toDWORD (l : Int) : Nat := (l % 2 ^ 32).toNat

/-- The conversion `reinterpret_cast<HWND>(l_param)`, handles being 64 bits
wide. -/
def toHWND (l : Int) : Nat := (l % 2 ^ 64).toNat

/-- The Win32 macro `MAKELPARAM(l, h)`: the low 16 bits of `l` below the low
16 bits of `h`. -/
def MAKELPARAM (l h : Int) : Nat := (l % 2 ^ 16).toNat + (h % 2 ^ 16).toNat * 2 ^ 16

/-- The Win32 function `PtInRect`: inside on the left and top edges, outside on
the right and bottom edges. -/
def PtInRect (r : RECT) (p : POINT) : Bool :=
  decide (r.left ≤ p.x) && decide (p.x < r.right) &&
    decide (r.top ≤ p.y) && decide (p.y < r.bottom)

/-- The enumeration `ui::WindowShowState`, with the values used here. -/
inductive WindowShowState
  | SHOW_STATE_DEFAULT | SHOW_STATE_NORMAL | SHOW_STATE_MINIMIZED | SHOW_STATE_MAXIMIZED
  | SHOW_STATE_FULLSCREEN
  deriving DecidableEq, Repr

/-- Calls that leave `native_window_views_win.cc`, in the order they are made.
Window handles, hook handles and window objects are named by numbers, 0 being
`NULL`. -/
inductive WinEffect
  | NotifyWindowMessage (message w_param : Nat) (l_param : Int)
  | DefWindowProc (hwnd message w_param : Nat) (l_param : Int)
  | OnScreenReaderDetected
  | OnAccessibilitySupportChanged
  | SetWindowPlacement (hwnd : Nat) (rcNormalPosition : RECT)
  | NotifyWindowWillResize (rect : RECT)
  | NotifyWindowWillMove (rect : RECT)
  | NotifyWindowEndSession
  | NotifyWindowMaximize
  | NotifyWindowMinimize
  | NotifyWindowUnmaximize
  | NotifyWindowEnterFullScreen
  | NotifyWindowRestore
  | SetWindowSubclass (hwnd subclass_id ref_data : Nat)
  | RemoveWindowSubclass (hwnd subclass_id : Nat)
  | SetWindowsHookEx
  | UnhookWindowsHookEx (hhk : Nat)
  | PostMessage (hwnd msg w_param l_param : Nat)
  | CallNextHookEx (hhk : Nat) (n_code : Int) (w_param : Nat) (l_param : Int)
  | DefSubclassProc (hwnd msg w_param : Nat) (l_param : Int)
  deriving DecidableEq

/-- The members of a `NativeWindowViews` that this file reads and writes.
`hwnd` is what `GetAcceleratedWidget()` and `GetNativeWindowHandle()` return. -/
structure NativeWindowViews where
  hwnd : Nat
  block_chromium_message_handler_ : Bool
  checked_for_a11y_support_ : Bool
  last_normal_placement_bounds_ : Rect
  last_window_state_ : WindowShowState
  movable_ : Bool
  legacy_window_ : Nat
  forwarding_mouse_messages_ : Bool
  deriving DecidableEq

/-- Answers of the operating system, of the host engine and of the window's
observers to the calls made from this file.  `screenReader` is what
`SystemParametersInfo(SPI_GETSCREENREADER)` stores; `axState` is `none` when
`BrowserAccessibilityState::GetInstance()` is null and otherwise carries
`IsAccessibleBrowser()`; `GetWindowPlacement` is `none` on failure and
otherwise the `rcNormalPosition` it stores; `willResize` and `willMove` are the
values the observers leave in `prevent_default`; `GetWindowRect` is the
window's current rectangle; `RectFromRECT`, `RectToRECT` and `RectIsEmpty` are
`gfx::Rect(const RECT&)`, `gfx::Rect::ToRECT` and `gfx::Rect::IsEmpty`;
`EnumChildWindows` lists the child windows in enumeration order;
`SetWindowsHookEx` is the handle that call returns (0 on failure). -/
structure WinEnv where
  screenReader : Nat
  UiaClientsAreListening : Bool
  axState : Option Bool
  GetWindowPlacement : Nat → Option RECT
  willResize : RECT → Bool
  willMove : RECT → Bool
  HandleThumbarButtonEvent : Nat → Bool
  GetWindowRect : Nat → RECT
  IsFullscreen : Bool
  DefWindowProc : Nat → Nat → Nat → Int → Int
  RectFromRECT : RECT → Rect
  RectToRECT : Rect → RECT
  RectIsEmpty : Rect → Bool
  EnumChildWindows : Nat → List Nat
  GetWindowTextW : Nat → String
  SetWindowsHookEx : Nat
  GetClientRect : Nat → RECT
  ScreenToClient : Nat → POINT → POINT
  CallNextHookEx : Int → Nat → Int → Int
  DefSubclassProc : Nat → Nat → Nat → Int → Int

/-- What one call of `PreHandleMSG` leaves behind: the returned boolean, the
window object, the `RECT` that `l_param` points at, the value stored in
`*result` (if any), and the calls made. -/
structure PreHandleOutcome where
  ret : Bool
  self : NativeWindowViews
  rect : RECT
  result : Option Int
  trace : List WinEffect

/-! ## `shell/browser/native_window_views_win.cc` : functions -/

/-- The helper `IsScreenReaderActive()`. -/
def IsScreenReaderActive (os : WinEnv) : Bool :=
  decide (os.screenReader ≠ 0) && os.UiaClientsAreListening

namespace NativeWindowViews

/-- The method `NativeWindowViews::HandleSizeEvent(w_param, l_param)`. -/
def HandleSizeEvent (os : WinEnv) (self : NativeWindowViews) (w_param : Nat) :
    NativeWindowViews × List WinEffect :=
  if w_param = SIZE_MAXIMIZED then
    ({ self with last_window_state_ := WindowShowState.SHOW_STATE_MAXIMIZED },
     [WinEffect.NotifyWindowMaximize])
  else if w_param = SIZE_MINIMIZED then
    let s1 := { self with last_window_state_ := WindowShowState.SHOW_STATE_MINIMIZED }
    let s2 :=
      match os.GetWindowPlacement self.hwnd with
      | some rcNormalPosition =>
        { s1 with last_normal_placement_bounds_ := os.RectFromRECT rcNormalPosition }
      | none => s1
    (s2, [WinEffect.NotifyWindowMinimize])
  else if w_param = SIZE_RESTORED then
    match self.last_window_state_ with
    | WindowShowState.SHOW_STATE_MAXIMIZED =>
      ({ self with last_window_state_ := WindowShowState.SHOW_STATE_NORMAL },
       [WinEffect.NotifyWindowUnmaximize])
    | WindowShowState.SHOW_STATE_MINIMIZED =>
      if os.IsFullscreen then
        ({ self with last_window_state_ := WindowShowState.SHOW_STATE_FULLSCREEN },
         [WinEffect.NotifyWindowEnterFullScreen])
      else
        ({ self with last_window_state_ := WindowShowState.SHOW_STATE_NORMAL },
         [WinEffect.NotifyWindowRestore])
    | _ => (self, [])
  else (self, [])

/-- The method `NativeWindowViews::PreHandleMSG(message, w_param, l_param,
result)`; `rect` is the `RECT` that `l_param` points at when the message is
WM_SIZING or WM_MOVING. -/
def PreHandleMSG (os : WinEnv) (self : NativeWindowViews) (message w_param : Nat)
    (l_param : Int) (rect : RECT) : PreHandleOutcome :=
  let t0 : List WinEffect := [WinEffect.NotifyWindowMessage message w_param l_param]
  if self.block_chromium_message_handler_ then
    ⟨true, self, rect, some (os.DefWindowProc self.hwnd message w_param l_param),
     t0 ++ [WinEffect.DefWindowProc self.hwnd message w_param l_param]⟩
  else if message = WM_GETOBJECT then
    if self.checked_for_a11y_support_ then ⟨false, self, rect, none, t0⟩
    else
      let obj_id := toDWORD l_param
      if obj_id ≠ OBJID_CLIENT_DWORD then ⟨false, self, rect, none, t0⟩
      else if !IsScreenReaderActive os then ⟨false, self, rect, none, t0⟩
      else
        let s1 := { self with checked_for_a11y_support_ := true }
        let t1 : List WinEffect :=
          match os.axState with
          | some false =>
            [WinEffect.OnScreenReaderDetected, WinEffect.OnAccessibilitySupportChanged]
          | _ => []
        ⟨false, s1, rect, none, t0 ++ t1⟩
  else if message = WM_GETMINMAXINFO then
    if !os.RectIsEmpty self.last_normal_placement_bounds_ then
      match os.GetWindowPlacement self.hwnd with
      | some _ =>
        let rcNormalPosition := os.RectToRECT self.last_normal_placement_bounds_
        let s1 := { self with block_chromium_message_handler_ := true }
        let t1 : List WinEffect := [WinEffect.SetWindowPlacement self.hwnd rcNormalPosition]
        let s2 := { s1 with block_chromium_message_handler_ := false }
        let s3 := { s2 with last_normal_placement_bounds_ := ⟨0, 0, 0, 0⟩ }
        ⟨false, s3, rect, none, t0 ++ t1⟩
      | none => ⟨false, self, rect, none, t0⟩
    else ⟨false, self, rect, none, t0⟩
  else if message = WM_COMMAND then
    if HIWORD w_param = THBN_CLICKED then
      ⟨os.HandleThumbarButtonEvent (LOWORD w_param), self, rect, none, t0⟩
    else ⟨false, self, rect, none, t0⟩
  else if message = WM_SIZING then
    let prevent_default := os.willResize rect
    let t1 : List WinEffect := [WinEffect.NotifyWindowWillResize rect]
    if prevent_default then ⟨true, self, os.GetWindowRect self.hwnd, none, t0 ++ t1⟩
    else ⟨false, self, rect, none, t0 ++ t1⟩
  else if message = WM_SIZE then
    let r := HandleSizeEvent os self w_param
    ⟨false, r.1, rect, none, t0 ++ r.2⟩
  else if message = WM_MOVING then
    let prevent_default := os.willMove rect
    let t1 : List WinEffect := [WinEffect.NotifyWindowWillMove rect]
    if !self.movable_ || prevent_default then
      ⟨true, self, os.GetWindowRect self.hwnd, none, t0 ++ t1⟩
    else ⟨false, self, rect, none, t0 ++ t1⟩
  else if message = WM_ENDSESSION then
    if w_param ≠ 0 then ⟨false, self, rect, none, t0 ++ [WinEffect.NotifyWindowEndSession]⟩
    else ⟨false, self, rect, none, t0⟩
  else if message = WM_PARENTNOTIFY then
    if LOWORD w_param = WM_CREATE then
      if self.legacy_window_ = 0 then
        ⟨false, { self with legacy_window_ := toHWND l_param }, rect, none, t0⟩
      else ⟨false, self, rect, none, t0⟩
    else ⟨false, self, rect, none, t0⟩
  else ⟨false, self, rect, none, t0⟩

end NativeWindowViews

/-- An environment for exercising the definitions: the will-resize observer
prevents the default, the will-move observer does not, the thumbar button 7 is
handled, and the window rectangle is (10, 20, 110, 220). -/
def sampleWin : WinEnv where
  screenReader := 0
  UiaClientsAreListening := false
  axState := none
  GetWindowPlacement := fun _ => none
  willResize := fun _ => true
  willMove := fun _ => false
  HandleThumbarButtonEvent := fun id => id == 7
  GetWindowRect := fun _ => ⟨10, 20, 110, 220⟩
  IsFullscreen := false
  DefWindowProc := fun _ _ _ _ => 0
  RectFromRECT := fun r => ⟨r.left, r.top, r.right - r.left, r.bottom - r.top⟩
  RectToRECT := fun r => ⟨r.x, r.y, r.x + r.width, r.y + r.height⟩
  RectIsEmpty := fun r => decide (r.width ≤ 0) || decide (r.height ≤ 0)
  EnumChildWindows := fun _ => [40, 41]
  GetWindowTextW := fun h => if h = 41 then "Chrome Legacy Window" else ""
  SetWindowsHookEx := 900
  GetClientRect := fun _ => ⟨0, 0, 100, 200⟩
  ScreenToClient := fun h p => if h = 41 then ⟨p.x - 10, p.y - 20⟩ else ⟨p.x - 500, p.y⟩
  CallNextHookEx := fun _ _ _ => 5
  DefSubclassProc := fun _ _ _ _ => 3

/-- A movable window object in its initial state, with window handle 30. -/
def sampleWindow : NativeWindowViews where
  hwnd := 30
  block_chromium_message_handler_ := false
  checked_for_a11y_support_ := false
  last_normal_placement_bounds_ := ⟨0, 0, 0, 0⟩
  last_window_state_ := WindowShowState.SHOW_STATE_NORMAL
  movable_ := true
  legacy_window_ := 0
  forwarding_mouse_messages_ := false

/-! ## `shell/browser/native_window_views_win.cc` : mouse forwarding -/

/-- The process-wide state around mouse forwarding: the window objects by
address, and the static members `forwarding_windows_` (a `std::set` of window
addresses, kept here as a strictly increasing list, which is the order in
which the set is iterated) and `mouse_hook_`. -/
structure ForwardingState where
  windows : Nat → NativeWindowViews
  forwarding_windows_ : List Nat
  mouse_hook_ : Nat

/-- The operation `std::set::insert`. -/
def setInsert (x : Nat) (s : List Nat) : List Nat :=
  if x ∈ s then s else s.orderedInsert (fun a b => a ≤ b) x

/-- The operation `std::set::erase`. -/
def setErase (x : Nat) (s : List Nat) : List Nat :=
  s.filter fun y => y != x

namespace NativeWindowViews

/-- The callback `FindLegacyWinFromChildWindowsProc(hWnd, lParam)`, `lParam`
being the window object: the object afterwards and the returned `BOOL`
(true to go on enumerating). -/
def FindLegacyWinFromChildWindowsProc (os : WinEnv) (native_view : NativeWindowViews)
    (hWnd : Nat) : NativeWindowViews × Bool :=
  if hWnd ≠ 0 then
    let windowCaption := os.GetWindowTextW hWnd
    if windowCaption = "Chrome Legacy Window" then
      ({ native_view with legacy_window_ := hWnd }, false)
    else (native_view, true)
  else (native_view, true)

/-- The call `EnumChildWindows(parent_window, FindLegacyWinFromChildWindowsProc,
native_view)` over the child windows `children`: the callback runs on each
child in turn until it returns false. -/
def enumChildWindows (os : WinEnv) (native_view : NativeWindowViews) :
    List Nat → NativeWindowViews
  | [] => native_view
  | hWnd :: rest =>
    let r := FindLegacyWinFromChildWindowsProc os native_view hWnd
    if r.2 then enumChildWindows os r.1 rest else r.1

/-- The opening block of `SetForwardMouseMessages`: when `legacy_window_` is
not set, look for the legacy window among the children of the native window. -/
def findLegacyWindow (os : WinEnv) (self : NativeWindowViews) : NativeWindowViews :=
  if self.legacy_window_ = 0 then
    let parent_window := self.hwnd
    enumChildWindows os self (os.EnumChildWindows parent_window)
  else self

/-- The method `NativeWindowViews::SetForwardMouseMessages(forward)` called on
the window object at address `this`: the state afterwards and the calls made. -/
def SetForwardMouseMessages (os : WinEnv) (g : ForwardingState) (this : Nat)
    (forward : Bool) : ForwardingState × List WinEffect :=
  let self := findLegacyWindow os (g.windows this)
  if forward && !self.forwarding_mouse_messages_ then
    let self := { self with forwarding_mouse_messages_ := true }
    let forwarding_windows := setInsert this g.forwarding_windows_
    let t1 : List WinEffect := [WinEffect.SetWindowSubclass self.legacy_window_ 1 this]
    if g.mouse_hook_ = 0 then
      (⟨Function.update g.windows this self, forwarding_windows, os.SetWindowsHookEx⟩,
       t1 ++ [WinEffect.SetWindowsHookEx])
    else
      (⟨Function.update g.windows this self, forwarding_windows, g.mouse_hook_⟩, t1)
  else if !forward && self.forwarding_mouse_messages_ then
    let self := { self with forwarding_mouse_messages_ := false }
    let forwarding_windows := setErase this g.forwarding_windows_
    let t1 : List WinEffect := [WinEffect.RemoveWindowSubclass self.legacy_window_ 1]
    if forwarding_windows.length = 0 then
      (⟨Function.update g.windows this self, forwarding_windows, 0⟩,
       t1 ++ [WinEffect.UnhookWindowsHookEx g.mouse_hook_])
    else
      (⟨Function.update g.windows this self, forwarding_windows, g.mouse_hook_⟩, t1)
  else
    (⟨Function.update g.windows this self, g.forwarding_windows_, g.mouse_hook_⟩, [])

/-- A sequence of `SetForwardMouseMessages` calls, each given by the window it
is called on and its argument. -/
def runSetForwardMouseMessages (os : WinEnv) (g : ForwardingState) :
    List (Nat × Bool) → ForwardingState
  | [] => g
  | c :: rest =>
    runSetForwardMouseMessages os (SetForwardMouseMessages os g c.1 c.2).1 rest

/-- The static callback `NativeWindowViews::SubclassProc(hwnd, msg, w_param,
l_param, subclass_id, ref_data)`, `window` being the object `ref_data` points
at: the returned `LRESULT` and the calls made. -/
def SubclassProc (os : WinEnv) (window : NativeWindowViews) (hwnd msg w_param : Nat)
    (l_param : Int) : Int × List WinEffect :=
  if msg = WM_MOUSELEAVE then
    if window.forwarding_mouse_messages_ then (0, [])
    else
      (os.DefSubclassProc hwnd msg w_param l_param,
       [WinEffect.DefSubclassProc hwnd msg w_param l_param])
  else
    (os.DefSubclassProc hwnd msg w_param l_param,
     [WinEffect.DefSubclassProc hwnd msg w_param l_param])

/-- The body of the loop in `MouseHookProc` for one forwarding window; `pt` is
the `pt` member of the `MSLLHOOKSTRUCT` that `l_param` points at. -/
def forwardMouseMove (os : WinEnv) (g : ForwardingState) (pt : POINT) (window : Nat) :
    List WinEffect :=
  let legacy_window := (g.windows window).legacy_window_
  let client_rect := os.GetClientRect legacy_window
  let p := os.ScreenToClient legacy_window pt
  if PtInRect client_rect p then
    let w := 0
    let l := MAKELPARAM p.x p.y
    [WinEffect.PostMessage legacy_window WM_MOUSEMOVE w l]
  else []

/-- The static callback `NativeWindowViews::MouseHookProc(n_code, w_param,
l_param)`: the returned `LRESULT` and the calls made. -/
def MouseHookProc (os : WinEnv) (g : ForwardingState) (n_code : Int) (w_param : Nat)
    (l_param : Int) (pt : POINT) : Int × List WinEffect :=
  if n_code < 0 then
    (os.CallNextHookEx n_code w_param l_param,
     [WinEffect.CallNextHookEx 0 n_code w_param l_param])
  else
    let t1 : List WinEffect :=
      if w_param = WM_MOUSEMOVE then
        g.forwarding_windows_.flatMap (forwardMouseMove os g pt)
      else []
    (os.CallNextHookEx n_code w_param l_param,
     t1 ++ [WinEffect.CallNextHookEx 0 n_code w_param l_param])

end NativeWindowViews

/-- The `PostMessage` calls of a trace, as (window, message, wParam, lParam). -/
def postedMessages (trace : List WinEffect) : List (Nat × Nat × Nat × Nat) :=
  trace.filterMap fun e =>
    match e with
    | .PostMessage hwnd msg w l => some (hwnd, msg, w, l)
    | _ => none

/-- The `CallNextHookEx` calls of a trace, as (hook, nCode, wParam, lParam). -/
def nextHookCalls (trace : List WinEffect) : List (Nat × Int × Nat × Int) :=
  trace.filterMap fun e =>
    match e with
    | .CallNextHookEx hhk n w l => some (hhk, n, w, l)
    | _ => none

/-- Whether the trace installs or removes a window subclass. -/
def touchesSubclass (trace : List WinEffect) : Bool :=
  trace.any fun e =>
    match e with
    | .SetWindowSubclass .. => true
    | .RemoveWindowSubclass .. => true
    | _ => false

/-- Whether the cursor at screen position `pt` lies in the client rectangle of
the legacy window of the window object at `window`. -/
def cursorInClient (os : WinEnv) (g : ForwardingState) (pt : POINT) (window : Nat) : Bool :=
  PtInRect (os.GetClientRect (g.windows window).legacy_window_)
    (os.ScreenToClient (g.windows window).legacy_window_ pt)

/-- The relation between the per-window flags and the static members: a window
is in `forwarding_windows_` exactly when its `forwarding_mouse_messages_` is
true, and `mouse_hook_` is non-null exactly when the set is non-empty. -/
def ForwardingInvariant (g : ForwardingState) : Prop :=
  (∀ w, w ∈ g.forwarding_windows_ ↔ (g.windows w).forwarding_mouse_messages_ = true) ∧
  (g.mouse_hook_ ≠ 0 ↔ g.forwarding_windows_ ≠ [])

/-- The process state before any window forwards mouse messages: every flag
false, the set empty, no hook. -/
def startState : ForwardingState where
  windows := fun a => { sampleWindow with hwnd := a + 30 }
  forwarding_windows_ := []
  mouse_hook_ := 0

/-- Two forwarding windows: object 1 with legacy window 41, object 2 with
legacy window 42. -/
def sampleForwarding : ForwardingState where
  windows := fun a =>
    if a = 1 ∨ a = 2 then
      { sampleWindow with legacy_window_ := a + 40, forwarding_mouse_messages_ := true }
    else sampleWindow
  forwarding_windows_ := [1, 2]
  mouse_hook_ := 900

/-! ## Theorems: `atom_paths.cc` -/

theorem getDirWithChild_some {P : Type} (env : PathEnv P) (Get : Int → Option P)
    (key : Int) (result : P) (child : String) (p : P) (h : Get key = some p) :
    getDirWithChild env Get key result child = (true, env.Append p child) := by
  simp [getDirWithChild, PathServiceGet, h]

theorem getDirWithChild_none {P : Type} (env : PathEnv P) (Get : Int → Option P)
    (key : Int) (result : P) (child : String) (h : Get key = none) :
    getDirWithChild env Get key result child = (false, result) := by
  simp [getDirWithChild, PathServiceGet, h]

theorem AtomPathProvider_user_data {P : Type} (env : PathEnv P) (Get : Int → Option P)
    (result : P) :
    AtomPathProvider env Get DIR_USER_DATA result
      = getDirWithChild env Get DIR_APP_DATA result env.GetApplicationName := by
  simp [AtomPathProvider, DIR_USER_DATA, DIR_CACHE, DIR_APP_DATA, PATH_START]

theorem AtomPathProvider_user_cache {P : Type} (env : PathEnv P) (Get : Int → Option P)
    (result : P) :
    AtomPathProvider env Get DIR_USER_CACHE result
      = getDirWithChild env Get DIR_CACHE result env.GetApplicationName := by
  simp [AtomPathProvider, DIR_USER_CACHE, DIR_USER_DATA, DIR_CACHE, DIR_APP_DATA,
    PATH_START]

theorem AtomPathProvider_app_logs {P : Type} (env : PathEnv P) (Get : Int → Option P)
    (result : P) :
    AtomPathProvider env Get DIR_APP_LOGS result
      = getDirWithChild env Get DIR_USER_DATA result "logs" := by
  simp [AtomPathProvider, DIR_APP_LOGS, DIR_USER_CACHE, DIR_USER_DATA, DIR_CACHE,
    DIR_APP_DATA, PATH_START]

theorem AtomPathProvider_unhandled {P : Type} (env : PathEnv P) (Get : Int → Option P)
    (key : Int) (result : P) (h1 : key ≠ DIR_APP_DATA) (h2 : key ≠ DIR_USER_DATA)
    (h3 : key ≠ DIR_CACHE) (h4 : key ≠ DIR_USER_CACHE) (h5 : key ≠ DIR_APP_LOGS) :
    AtomPathProvider env Get key result = (false, result) := by
  simp [AtomPathProvider, h1, h2, h3, h4, h5]

/-- C1: for each derived key (DIR_USER_DATA from DIR_APP_DATA with the
application name, DIR_USER_CACHE from DIR_CACHE with the application name,
DIR_APP_LOGS from DIR_USER_DATA with "logs"), whenever the path service
resolves the parent key to `p`, the provider returns true and sets the result
to `p` with the child appended. -/
theorem C1_derived_keys {P : Type} (env : PathEnv P) (Get : Int → Option P)
    (result : P) :
    (∀ p, Get DIR_APP_DATA = some p →
      AtomPathProvider env Get DIR_USER_DATA result
        = (true, env.Append p env.GetApplicationName)) ∧
    (∀ p, Get DIR_CACHE = some p →
      AtomPathProvider env Get DIR_USER_CACHE result
        = (true, env.Append p env.GetApplicationName)) ∧
    (∀ p, Get DIR_USER_DATA = some p →
      AtomPathProvider env Get DIR_APP_LOGS result = (true, env.Append p "logs")) := by
  refine ⟨fun p h => ?_, fun p h => ?_, fun p h => ?_⟩
  · rw [AtomPathProvider_user_data, getDirWithChild_some env Get _ _ _ p h]
  · rw [AtomPathProvider_user_cache, getDirWithChild_some env Get _ _ _ p h]
  · rw [AtomPathProvider_app_logs, getDirWithChild_some env Get _ _ _ p h]

/-- C1 at the sample instance: each parent key resolves, and each derived key
yields the parent path with the child as last component. -/
theorem C1_derived_keys_witness :
    (sampleGet DIR_APP_DATA = some ["appdata"] ∧
      AtomPathProvider sampleEnv sampleGet DIR_USER_DATA []
        = (true, ["appdata", "Electron"])) ∧
    (sampleGet DIR_CACHE = some ["cache"] ∧
      AtomPathProvider sampleEnv sampleGet DIR_USER_CACHE []
        = (true, ["cache", "Electron"])) ∧
    (sampleGet DIR_USER_DATA = some ["appdata", "Electron"] ∧
      AtomPathProvider sampleEnv sampleGet DIR_APP_LOGS []
        = (true, ["appdata", "Electron", "logs"])) :=
  ⟨⟨by decide, (C1_derived_keys sampleEnv sampleGet []).1 ["appdata"] (by decide)⟩,
   ⟨by decide, (C1_derived_keys sampleEnv sampleGet []).2.1 ["cache"] (by decide)⟩,
   ⟨by decide,
    (C1_derived_keys sampleEnv sampleGet []).2.2 ["appdata", "Electron"] (by decide)⟩⟩

/-- C2: if the path service answers every electron key with what
`AtomPathProvider` computes (no overrides) and DIR_APP_DATA resolves to `p`,
then DIR_USER_DATA resolves to `p/<application name>` and DIR_APP_LOGS to
`p/<application name>/logs`; in any such state DIR_APP_LOGS is the "logs"
child of whatever DIR_USER_DATA resolves to. -/
theorem C2_logs_inside_user_data {P : Type} (env : PathEnv P) (Get : Int → Option P)
    (hres : ∀ k r, PATH_START ≤ k → k < PATH_END →
      Get k = providerAnswer (AtomPathProvider env Get k r))
    (p : P) (hp : Get DIR_APP_DATA = some p) :
    Get DIR_USER_DATA = some (env.Append p env.GetApplicationName) ∧
    Get DIR_APP_LOGS
      = some (env.Append (env.Append p env.GetApplicationName) "logs") ∧
    (∀ q, Get DIR_USER_DATA = some q → Get DIR_APP_LOGS = some (env.Append q "logs")) := by
  have hlogs : ∀ q, Get DIR_USER_DATA = some q →
      Get DIR_APP_LOGS = some (env.Append q "logs") := by
    intro q hq
    have h := hres DIR_APP_LOGS q (by decide) (by decide)
    rw [AtomPathProvider_app_logs, getDirWithChild_some env Get _ _ _ q hq] at h
    simpa [providerAnswer] using h
  have hud : Get DIR_USER_DATA = some (env.Append p env.GetApplicationName) := by
    have h := hres DIR_USER_DATA p (by decide) (by decide)
    rw [AtomPathProvider_user_data, getDirWithChild_some env Get _ _ _ p hp] at h
    simpa [providerAnswer] using h
  exact ⟨hud, hlogs _ hud, hlogs⟩

theorem sampleGet_consistent (k : Int) (r : List String)
    (h1 : PATH_START ≤ k) (h2 : k < PATH_END) :
    sampleGet k = providerAnswer (AtomPathProvider sampleEnv sampleGet k r) := by
  have hk : k = 11000 ∨ k = 11001 ∨ k = 11002 ∨ k = 11003 ∨ k = 11004 := by
    simp only [PATH_START, PATH_END, DIR_APP_LOGS, DIR_USER_CACHE, DIR_CACHE,
      DIR_USER_DATA, DIR_APP_DATA] at h1 h2
    omega
  rcases hk with h | h | h | h | h <;> subst h <;> rfl

/-- C2 at the sample instance: the sample path service is consistent with the
provider, DIR_APP_DATA resolves, and the logs directory is
`appdata/Electron/logs`. -/
theorem C2_logs_inside_user_data_witness :
    sampleGet DIR_APP_DATA = some ["appdata"] ∧
    sampleGet DIR_APP_LOGS = some ["appdata", "Electron", "logs"] :=
  ⟨by decide,
   (C2_logs_inside_user_data sampleEnv sampleGet sampleGet_consistent
      ["appdata"] (by decide)).2.1⟩

/-- C3: the provider returns false and leaves the result untouched for every
key outside the five handled ones, and for every derived key whose parent the
path service cannot resolve; every key in `[PATH_START, PATH_END)` is one of
the five handled keys. -/
theorem C3_provider_failure {P : Type} (env : PathEnv P) (Get : Int → Option P)
    (result : P) :
    (∀ key, key ≠ DIR_APP_DATA → key ≠ DIR_USER_DATA → key ≠ DIR_CACHE →
        key ≠ DIR_USER_CACHE → key ≠ DIR_APP_LOGS →
        AtomPathProvider env Get key result = (false, result)) ∧
    (Get DIR_APP_DATA = none →
        AtomPathProvider env Get DIR_USER_DATA result = (false, result)) ∧
    (Get DIR_CACHE = none →
        AtomPathProvider env Get DIR_USER_CACHE result = (false, result)) ∧
    (Get DIR_USER_DATA = none →
        AtomPathProvider env Get DIR_APP_LOGS result = (false, result)) ∧
    (∀ k, PATH_START ≤ k → k < PATH_END →
        k = DIR_APP_DATA ∨ k = DIR_USER_DATA ∨ k = DIR_CACHE ∨ k = DIR_USER_CACHE ∨
          k = DIR_APP_LOGS) := by
  refine ⟨fun key h1 h2 h3 h4 h5 => AtomPathProvider_unhandled env Get key result h1 h2 h3 h4 h5,
    fun h => ?_, fun h => ?_, fun h => ?_, fun k h1 h2 => ?_⟩
  · rw [AtomPathProvider_user_data, getDirWithChild_none env Get _ _ _ h]
  · rw [AtomPathProvider_user_cache, getDirWithChild_none env Get _ _ _ h]
  · rw [AtomPathProvider_app_logs, getDirWithChild_none env Get _ _ _ h]
  · simp only [PATH_START, PATH_END, DIR_APP_LOGS, DIR_USER_CACHE, DIR_CACHE,
      DIR_USER_DATA, DIR_APP_DATA] at h1 h2 ⊢
    omega

/-- C3 at concrete inputs: key 7 is not handled; with a path service that
resolves nothing every derived key fails; key 11003 lies in the registered
range and is DIR_USER_CACHE. -/
theorem C3_provider_failure_witness :
    AtomPathProvider sampleEnv sampleGet 7 ["keep"] = (false, ["keep"]) ∧
    AtomPathProvider sampleEnv (fun _ => none) DIR_USER_DATA ["keep"] = (false, ["keep"]) ∧
    AtomPathProvider sampleEnv (fun _ => none) DIR_USER_CACHE ["keep"] = (false, ["keep"]) ∧
    AtomPathProvider sampleEnv (fun _ => none) DIR_APP_LOGS ["keep"] = (false, ["keep"]) ∧
    ((11003 : Int) = DIR_APP_DATA ∨ (11003 : Int) = DIR_USER_DATA ∨
      (11003 : Int) = DIR_CACHE ∨ (11003 : Int) = DIR_USER_CACHE ∨
      (11003 : Int) = DIR_APP_LOGS) :=
  ⟨(C3_provider_failure sampleEnv sampleGet ["keep"]).1 7
      (by decide) (by decide) (by decide) (by decide) (by decide),
   (C3_provider_failure sampleEnv (fun _ => none) ["keep"]).2.1 rfl,
   (C3_provider_failure sampleEnv (fun _ => none) ["keep"]).2.2.1 rfl,
   (C3_provider_failure sampleEnv (fun _ => none) ["keep"]).2.2.2.1 rfl,
   (C3_provider_failure sampleEnv (fun _ => none) ["keep"]).2.2.2.2 11003
      (by decide) (by decide)⟩

/-! ## Theorems: `osr_web_contents_view.cc` -/

theorem OnWindowResize_native_window (s : OffScreenWebContentsView) :
    s.OnWindowResize.native_window_ = s.native_window_ ∧
    s.OnWindowResize.windowSize = s.windowSize := by
  unfold OffScreenWebContentsView.OnWindowResize
  cases s.view <;> simp

theorem OnWindowClosed_native_window (s : OffScreenWebContentsView) :
    s.OnWindowClosed.native_window_ = none := by
  unfold OffScreenWebContentsView.OnWindowClosed
  cases h : s.native_window_ <;> simp [h]

theorem SetNativeWindow_native_window (s : OffScreenWebContentsView) (window : Option Nat) :
    (s.SetNativeWindow window).native_window_ = window ∧
    (s.SetNativeWindow window).windowSize = s.windowSize := by
  unfold OffScreenWebContentsView.SetNativeWindow
  simp only [OnWindowResize_native_window]
  cases s.native_window_ <;> cases window <;> simp

/-- C4: `GetSize()` returns the native window's size whenever a native window
is set, and 1x1 (which is not 0x0) whenever none is set; in particular it
returns 1x1 after `OnWindowClosed()` and after `SetNativeWindow(nullptr)`, and
the new window's size after `SetNativeWindow(w)`. -/
theorem C4_GetSize (s : OffScreenWebContentsView) :
    (∀ w, s.native_window_ = some w → s.GetSize = s.windowSize w) ∧
    (s.native_window_ = none → s.GetSize = ⟨1, 1⟩ ∧ s.GetSize ≠ ⟨0, 0⟩) ∧
    s.OnWindowClosed.GetSize = ⟨1, 1⟩ ∧
    (s.SetNativeWindow none).GetSize = ⟨1, 1⟩ ∧
    (∀ w, (s.SetNativeWindow (some w)).GetSize = s.windowSize w) := by
  refine ⟨fun w h => ?_, fun h => ?_, ?_, ?_, fun w => ?_⟩
  · simp [OffScreenWebContentsView.GetSize, h]
  · simp [OffScreenWebContentsView.GetSize, h]
  · simp [OffScreenWebContentsView.GetSize, OnWindowClosed_native_window]
  · simp [OffScreenWebContentsView.GetSize, SetNativeWindow_native_window]
  · simp [OffScreenWebContentsView.GetSize, SetNativeWindow_native_window]

/-- C4 at the sample view: attached to window 3 it reports 800x600; once the
window is closed it reports 1x1. -/
theorem C4_GetSize_witness :
    (sampleView.native_window_ = some 3 ∧ sampleView.GetSize = ⟨800, 600⟩) ∧
    (sampleView.OnWindowClosed.native_window_ = none ∧
      sampleView.OnWindowClosed.GetSize = ⟨1, 1⟩ ∧
      sampleView.OnWindowClosed.GetSize ≠ ⟨0, 0⟩) :=
  ⟨⟨rfl, (C4_GetSize sampleView).1 3 rfl⟩,
   ⟨rfl, (C4_GetSize sampleView.OnWindowClosed).2.1 rfl⟩⟩

/-! ## Theorems: `atom_api_web_contents.cc` -/

theorem LoadURL_accepted (e : Engine) (self : WebContents) (url : GURL)
    (options : LoadURLOptions) (hv : url.is_valid = true)
    (hs : url.spec.utf8ByteSize ≤ e.kMaxURLChars) :
    ∃ t1 params t3,
      WebContents.LoadURL e self url options
        = t1 ++ [Effect.DiscardNonCommittedEntries, Effect.LoadURLWithParams params] ++ t3 ∧
      params.url = url ∧ emits "did-fail-load" t1 = false ∧
      emits "did-fail-load" t3 = false := by
  have hg : (!url.is_valid || decide (url.spec.utf8ByteSize > e.kMaxURLChars)) = false := by
    simp [hv, hs]
  unfold WebContents.LoadURL
  rw [if_neg (by simp [hg])]
  refine ⟨_, _, _, rfl, ?_, ?_, ?_⟩
  · rcases options with ⟨a, b, c, d, f, g, r⟩
    cases a <;> cases b <;> cases d <;> cases f <;> cases g <;>
      rcases r with _ | _ | _ <;> rfl
  · cases options.userAgent <;> simp [emits]
  · cases self.renderWidgetHostView <;> cases self.backgroundColor <;> simp [emits]

/-- C5: for every URL that is invalid or whose spec is longer than
`kMaxURLChars`, `LoadURL` makes exactly one call, the emission of
'did-fail-load' with (ERR_INVALID_URL, its short string, the possibly invalid
spec, true); a valid URL whose spec has exactly `kMaxURLChars` bytes is not
rejected: no 'did-fail-load' is emitted and `LoadURLWithParams` is called for
that URL. -/
theorem C5_LoadURL_invalid (e : Engine) (self : WebContents) (url : GURL)
    (options : LoadURLOptions) :
    (url.is_valid = false ∨ e.kMaxURLChars < url.spec.utf8ByteSize →
      WebContents.LoadURL e self url options
        = [Effect.Emit "did-fail-load"
            [Arg.int e.ERR_INVALID_URL, Arg.str (e.ErrorToShortString e.ERR_INVALID_URL),
             Arg.str url.possibly_invalid_spec, Arg.bool true]]) ∧
    (url.is_valid = true → url.spec.utf8ByteSize = e.kMaxURLChars →
      emits "did-fail-load" (WebContents.LoadURL e self url options) = false ∧
      ∃ params, params.url = url ∧
        Effect.LoadURLWithParams params ∈ WebContents.LoadURL e self url options) := by
  constructor
  · intro h
    have hg : (!url.is_valid || decide (url.spec.utf8ByteSize > e.kMaxURLChars)) = true := by
      rcases h with h | h
      · simp [h]
      · simp [h]
    unfold WebContents.LoadURL
    rw [if_pos hg]
  · intro hv hs
    obtain ⟨t1, params, t3, ht, hp, h1, h3⟩ :=
      LoadURL_accepted e self url options hv (le_of_eq hs)
    rw [ht]
    refine ⟨?_, params, hp, by simp⟩
    simp only [emits, List.any_append, List.any_cons, List.any_nil] at h1 h3 ⊢
    simp [h1, h3]

/-- C5 at concrete inputs (limit 8): an invalid URL and an over-long valid URL
are rejected with the single 'did-fail-load'; a valid URL of exactly 8 bytes is
loaded. -/
theorem C5_LoadURL_invalid_witness :
    WebContents.LoadURL sampleEngine sampleContents ⟨false, "::"⟩ noOptions
      = [Effect.Emit "did-fail-load"
          [Arg.int (-300), Arg.str "ERR_INVALID_URL", Arg.str "::", Arg.bool true]] ∧
    WebContents.LoadURL sampleEngine sampleContents ⟨true, "http://ab"⟩ noOptions
      = [Effect.Emit "did-fail-load"
          [Arg.int (-300), Arg.str "ERR_INVALID_URL", Arg.str "http://ab", Arg.bool true]] ∧
    emits "did-fail-load"
      (WebContents.LoadURL sampleEngine sampleContents ⟨true, "http://a"⟩ noOptions) = false :=
  ⟨(C5_LoadURL_invalid sampleEngine sampleContents ⟨false, "::"⟩ noOptions).1
      (Or.inl rfl),
   (C5_LoadURL_invalid sampleEngine sampleContents ⟨true, "http://ab"⟩ noOptions).1
      (Or.inr (by decide)),
   ((C5_LoadURL_invalid sampleEngine sampleContents ⟨true, "http://a"⟩ noOptions).2
      rfl (by decide)).1⟩

theorem frameIds_eq (h : NavigationHandle) :
    (match h.GetRenderFrameHost with
      | some fh => (fh.processID, fh.routingID)
      | none => ((-1 : Int), (-1 : Int))) = (frameProcessId h, frameRoutingId h) := by
  unfold frameProcessId frameRoutingId
  cases h.GetRenderFrameHost <;> rfl

theorem httpResponse_eq (h : NavigationHandle) :
    (match h.GetResponseHeaders with
      | some r => (r.statusText, r.response_code)
      | none => ("", (-1 : Int))) = (httpStatusText h, httpResponseCode h) := by
  unfold httpStatusText httpResponseCode
  cases h.GetResponseHeaders <;> rfl

/-- C6: for a committed navigation that ended on an error page,
`DidFinishNavigation` emits 'did-fail-provisional-load' with (code, short
string, url, is_main_frame, frame process id, frame routing id), then
'did-fail-load' with the same arguments exactly when the code is not
ERR_ABORTED, and nothing else; in particular none of 'did-navigate',
'did-frame-navigate', 'did-navigate-in-page', 'load-commit'. -/
theorem C6_error_page (e : Engine) (self : WebContents) (h : NavigationHandle)
    (hc : h.HasCommitted = true) (he : h.IsErrorPage = true) :
    WebContents.DidFinishNavigation e self h
      = Effect.Emit "did-fail-provisional-load"
          [Arg.int h.GetNetErrorCode, Arg.str (e.ErrorToShortString h.GetNetErrorCode),
           Arg.url h.GetURL, Arg.bool h.IsInMainFrame, Arg.int (frameProcessId h),
           Arg.int (frameRoutingId h)]
        :: (if h.GetNetErrorCode ≠ e.ERR_ABORTED then
              [Effect.Emit "did-fail-load"
                [Arg.int h.GetNetErrorCode, Arg.str (e.ErrorToShortString h.GetNetErrorCode),
                 Arg.url h.GetURL, Arg.bool h.IsInMainFrame, Arg.int (frameProcessId h),
                 Arg.int (frameRoutingId h)]]
            else []) ∧
    (emits "did-fail-load" (WebContents.DidFinishNavigation e self h) = true
      ↔ h.GetNetErrorCode ≠ e.ERR_ABORTED) ∧
    emits "did-navigate" (WebContents.DidFinishNavigation e self h) = false ∧
    emits "did-frame-navigate" (WebContents.DidFinishNavigation e self h) = false ∧
    emits "did-navigate-in-page" (WebContents.DidFinishNavigation e self h) = false ∧
    emits "load-commit" (WebContents.DidFinishNavigation e self h) = false := by
  have key : WebContents.DidFinishNavigation e self h
      = Effect.Emit "did-fail-provisional-load"
          [Arg.int h.GetNetErrorCode, Arg.str (e.ErrorToShortString h.GetNetErrorCode),
           Arg.url h.GetURL, Arg.bool h.IsInMainFrame, Arg.int (frameProcessId h),
           Arg.int (frameRoutingId h)]
        :: (if h.GetNetErrorCode ≠ e.ERR_ABORTED then
              [Effect.Emit "did-fail-load"
                [Arg.int h.GetNetErrorCode, Arg.str (e.ErrorToShortString h.GetNetErrorCode),
                 Arg.url h.GetURL, Arg.bool h.IsInMainFrame, Arg.int (frameProcessId h),
                 Arg.int (frameRoutingId h)]]
            else []) := by
    unfold WebContents.DidFinishNavigation
    simp only [hc, he, frameIds_eq]
    rfl
  rw [key]
  refine ⟨rfl, ?_, ?_, ?_, ?_, ?_⟩ <;>
    by_cases hab : h.GetNetErrorCode = e.ERR_ABORTED <;> simp [emits, hab]

/-- C6 at the sample error navigation (code -105, not ERR_ABORTED): both
failure events are emitted with the same six arguments. -/
theorem C6_error_page_witness :
    WebContents.DidFinishNavigation sampleEngine sampleContents sampleErrorNavigation
      = [Effect.Emit "did-fail-provisional-load"
          [Arg.int (-105), Arg.str "ERR_NAME_NOT_RESOLVED", Arg.url ⟨true, "http://a/"⟩,
           Arg.bool true, Arg.int 7, Arg.int 1],
         Effect.Emit "did-fail-load"
          [Arg.int (-105), Arg.str "ERR_NAME_NOT_RESOLVED", Arg.url ⟨true, "http://a/"⟩,
           Arg.bool true, Arg.int 7, Arg.int 1]] :=
  (C6_error_page sampleEngine sampleContents sampleErrorNavigation rfl rfl).1

/-- C7: `DidFinishNavigation` emits nothing for a navigation that has not
committed.  For a committed non-error navigation it emits, in order: for a
same-document navigation 'did-navigate-in-page'; otherwise 'did-frame-navigate'
followed by 'did-navigate' exactly when the navigation is in the main frame;
and after either 'load-commit' exactly when the contents is a guest (type
WEB_VIEW).  The response code and status text are -1 and "" without response
headers, and the frame process and routing ids are -1 without a render frame
host. -/
theorem C7_committed_navigation (e : Engine) (self : WebContents) (h : NavigationHandle) :
    (h.HasCommitted = false → WebContents.DidFinishNavigation e self h = []) ∧
    (h.HasCommitted = true → h.IsErrorPage = false →
      WebContents.DidFinishNavigation e self h
        = (if h.IsSameDocument then
             [Effect.Emit "did-navigate-in-page"
               [Arg.url h.GetURL, Arg.bool h.IsInMainFrame, Arg.int (frameProcessId h),
                Arg.int (frameRoutingId h)]]
           else
             Effect.Emit "did-frame-navigate"
               [Arg.url h.GetURL, Arg.int (httpResponseCode h), Arg.str (httpStatusText h),
                Arg.bool h.IsInMainFrame, Arg.int (frameProcessId h),
                Arg.int (frameRoutingId h)]
             :: (if h.IsInMainFrame then
                   [Effect.Emit "did-navigate"
                     [Arg.url h.GetURL, Arg.int (httpResponseCode h),
                      Arg.str (httpStatusText h)]]
                 else []))
          ++ (if self.type_ = WebContentsType.WEB_VIEW then
                [Effect.Emit "load-commit" [Arg.url h.GetURL, Arg.bool h.IsInMainFrame]]
              else [])) ∧
    (h.GetResponseHeaders = none → httpResponseCode h = -1 ∧ httpStatusText h = "") ∧
    (h.GetRenderFrameHost = none → frameProcessId h = -1 ∧ frameRoutingId h = -1) := by
  refine ⟨fun hc => ?_, fun hc he => ?_, fun hn => ?_, fun hn => ?_⟩
  · simp [WebContents.DidFinishNavigation, hc]
  · unfold WebContents.DidFinishNavigation
    simp only [hc, he, frameIds_eq, httpResponse_eq, WebContents.IsGuest]
    by_cases hg : self.type_ = WebContentsType.WEB_VIEW <;>
      cases h.IsSameDocument <;> cases h.IsInMainFrame <;> simp [hg]
  · simp [httpResponseCode, httpStatusText, hn]
  · simp [frameProcessId, frameRoutingId, hn]

/-- C7 at the sample navigation (main frame, no headers, no frame host) in a
guest: 'did-frame-navigate', 'did-navigate', 'load-commit', with -1 and "". -/
theorem C7_committed_navigation_witness :
    WebContents.DidFinishNavigation sampleEngine sampleGuest sampleNavigation
      = [Effect.Emit "did-frame-navigate"
          [Arg.url ⟨true, "http://a/"⟩, Arg.int (-1), Arg.str "", Arg.bool true,
           Arg.int (-1), Arg.int (-1)],
         Effect.Emit "did-navigate" [Arg.url ⟨true, "http://a/"⟩, Arg.int (-1), Arg.str ""],
         Effect.Emit "load-commit" [Arg.url ⟨true, "http://a/"⟩, Arg.bool true]] ∧
    WebContents.DidFinishNavigation sampleEngine sampleGuest
      { sampleNavigation with HasCommitted := false } = [] :=
  ⟨(C7_committed_navigation sampleEngine sampleGuest sampleNavigation).2.1 rfl rfl,
   (C7_committed_navigation sampleEngine sampleGuest
      { sampleNavigation with HasCommitted := false }).1 rfl⟩

/-- C8: `OpenURLFromTab` returns nullptr without delegating whenever the
disposition is not CURRENT_TAB (its only call is then the emission of
'-new-window' for the types BROWSER_WINDOW and OFF_SCREEN and of 'new-window'
for every other type, never 'will-navigate'), whenever a 'will-navigate'
listener prevents the default, and whenever the contents is destroyed once
'will-navigate' was emitted; it delegates to
`CommonWebContentsDelegate::OpenURLFromTab(source, params)` in exactly the
remaining case. -/
theorem C8_OpenURLFromTab (l : Listeners) (self : WebContents) (source : Nat)
    (params : OpenURLParams) :
    (params.disposition ≠ WindowOpenDisposition.CURRENT_TAB →
      WebContents.OpenURLFromTab l self source params
        = ([Effect.Emit
              (if self.type_ = WebContentsType.BROWSER_WINDOW ∨
                  self.type_ = WebContentsType.OFF_SCREEN then "-new-window"
               else "new-window")
              [Arg.url params.url, Arg.str "", Arg.disposition params.disposition]],
           WebContents.OpenURLResult.nullptr) ∧
      emits "will-navigate" (WebContents.OpenURLFromTab l self source params).1 = false) ∧
    (params.disposition = WindowOpenDisposition.CURRENT_TAB →
      l.preventDefault "will-navigate" [Arg.url params.url] = true →
      WebContents.OpenURLFromTab l self source params
        = ([Effect.Emit "will-navigate" [Arg.url params.url]],
           WebContents.OpenURLResult.nullptr)) ∧
    (params.disposition = WindowOpenDisposition.CURRENT_TAB →
      (self.destroyed || l.destroys "will-navigate" [Arg.url params.url]) = true →
      WebContents.OpenURLFromTab l self source params
        = ([Effect.Emit "will-navigate" [Arg.url params.url]],
           WebContents.OpenURLResult.nullptr)) ∧
    ((WebContents.OpenURLFromTab l self source params).2
        = WebContents.OpenURLResult.delegated source params
      ↔ params.disposition = WindowOpenDisposition.CURRENT_TAB ∧
        l.preventDefault "will-navigate" [Arg.url params.url] = false ∧
        (self.destroyed || l.destroys "will-navigate" [Arg.url params.url]) = false) ∧
    ((WebContents.OpenURLFromTab l self source params).2
        ≠ WebContents.OpenURLResult.delegated source params →
      (WebContents.OpenURLFromTab l self source params).2
        = WebContents.OpenURLResult.nullptr) := by
  refine ⟨fun hd => ?_, fun hd hp => ?_, fun hd hx => ?_, ?_, ?_⟩
  · by_cases ht : self.type_ = WebContentsType.BROWSER_WINDOW ∨
        self.type_ = WebContentsType.OFF_SCREEN
    · simp [WebContents.OpenURLFromTab, WebContents.Emit, hd, ht, emits]
    · simp [WebContents.OpenURLFromTab, WebContents.Emit, hd, ht, emits]
  · simp [WebContents.OpenURLFromTab, WebContents.Emit, hd, hp]
  · by_cases hp : l.preventDefault "will-navigate" [Arg.url params.url] = true
    · simp [WebContents.OpenURLFromTab, WebContents.Emit, hd, hp]
    · have hx2 : self.destroyed = true ∨
          l.destroys "will-navigate" [Arg.url params.url] = true := by
        simpa using hx
      rcases hx2 with h1 | h1 <;>
        simp [WebContents.OpenURLFromTab, WebContents.Emit, WebContents.IsDestroyed,
          hd, hp, h1]
  · by_cases hd : params.disposition = WindowOpenDisposition.CURRENT_TAB
    · by_cases hp : l.preventDefault "will-navigate" [Arg.url params.url] = true
      · simp [WebContents.OpenURLFromTab, WebContents.Emit, hd, hp]
      · by_cases hx : (self.destroyed || l.destroys "will-navigate" [Arg.url params.url]) = true
        · have hx2 : self.destroyed = true ∨
              l.destroys "will-navigate" [Arg.url params.url] = true := by
            simpa using hx
          rcases hx2 with h1 | h1 <;>
            simp [WebContents.OpenURLFromTab, WebContents.Emit, WebContents.IsDestroyed,
              hd, hp, h1]
        · have hx2 : self.destroyed = false ∧
              l.destroys "will-navigate" [Arg.url params.url] = false := by
            simpa using hx
          simp [WebContents.OpenURLFromTab, WebContents.Emit, WebContents.IsDestroyed,
            hd, hp, hx2.1, hx2.2]
    · by_cases ht : self.type_ = WebContentsType.BROWSER_WINDOW ∨
          self.type_ = WebContentsType.OFF_SCREEN <;>
        simp [WebContents.OpenURLFromTab, hd, ht]
  · simp only [WebContents.OpenURLFromTab]
    split_ifs <;> simp

/-- C8 at concrete inputs: a NEW_WINDOW disposition in a browser window emits
'-new-window' and returns nullptr; a CURRENT_TAB navigation whose listener
prevents the default, or destroys the contents, returns nullptr; with quiet
listeners it is delegated. -/
theorem C8_OpenURLFromTab_witness :
    WebContents.OpenURLFromTab quietListeners sampleContents 0
        ⟨⟨true, "http://a/"⟩, WindowOpenDisposition.NEW_WINDOW⟩
      = ([Effect.Emit "-new-window"
            [Arg.url ⟨true, "http://a/"⟩, Arg.str "",
             Arg.disposition WindowOpenDisposition.NEW_WINDOW]],
         WebContents.OpenURLResult.nullptr) ∧
    WebContents.OpenURLFromTab ⟨fun _ _ => true, fun _ _ => false⟩ sampleContents 0
        ⟨⟨true, "http://a/"⟩, WindowOpenDisposition.CURRENT_TAB⟩
      = ([Effect.Emit "will-navigate" [Arg.url ⟨true, "http://a/"⟩]],
         WebContents.OpenURLResult.nullptr) ∧
    WebContents.OpenURLFromTab ⟨fun _ _ => false, fun _ _ => true⟩ sampleContents 0
        ⟨⟨true, "http://a/"⟩, WindowOpenDisposition.CURRENT_TAB⟩
      = ([Effect.Emit "will-navigate" [Arg.url ⟨true, "http://a/"⟩]],
         WebContents.OpenURLResult.nullptr) ∧
    (WebContents.OpenURLFromTab quietListeners sampleContents 0
        ⟨⟨true, "http://a/"⟩, WindowOpenDisposition.CURRENT_TAB⟩).2
      = WebContents.OpenURLResult.delegated 0
          ⟨⟨true, "http://a/"⟩, WindowOpenDisposition.CURRENT_TAB⟩ :=
  ⟨((C8_OpenURLFromTab quietListeners sampleContents 0
        ⟨⟨true, "http://a/"⟩, WindowOpenDisposition.NEW_WINDOW⟩).1 (by decide)).1,
   (C8_OpenURLFromTab ⟨fun _ _ => true, fun _ _ => false⟩ sampleContents 0
        ⟨⟨true, "http://a/"⟩, WindowOpenDisposition.CURRENT_TAB⟩).2.1 rfl rfl,
   (C8_OpenURLFromTab ⟨fun _ _ => false, fun _ _ => true⟩ sampleContents 0
        ⟨⟨true, "http://a/"⟩, WindowOpenDisposition.CURRENT_TAB⟩).2.2.1 rfl rfl,
   (C8_OpenURLFromTab quietListeners sampleContents 0
        ⟨⟨true, "http://a/"⟩, WindowOpenDisposition.CURRENT_TAB⟩).2.2.2.1.mpr
      ⟨rfl, rfl, rfl⟩⟩

theorem Double.lt_false_of_ge {a b : Double} (h : Double.ge a b = true) :
    Double.lt a b = false := by
  cases a <;> cases b <;> simp_all [Double.ge, Double.lt]

/-- C9, as the claim states it, fails: the factor 2^-53 is greater than 0.0,
yet `SetZoomFactor` throws and does not set the zoom level. -/
theorem C9_counterexample :
    Double.gt (Double.finite (1 / 2 ^ 53)) Double.zero = true ∧
    WebContents.SetZoomFactor sampleEngine (Double.finite (1 / 2 ^ 53))
      = [Effect.ThrowError "'zoomFactor' must be a double greater than 0.0"] := by
  constructor
  · simp [Double.gt, Double.lt, Double.zero]
  · have h : Double.lt (Double.finite (1 / 2 ^ 53)) Double.epsilon = true := by
      simp only [Double.lt, Double.epsilon, decide_eq_true_eq]
      norm_num
    unfold WebContents.SetZoomFactor
    rw [if_pos h]

/-- C9, amended: `SetZoomFactor(factor)` accepts every factor that is at least
`std::numeric_limits<double>::epsilon()`, its only call being
`SetZoomLevel(ZoomFactorToZoomLevel(factor))`, and rejects every factor that is
less than epsilon, its only call being the throw of "'zoomFactor' must be a
double greater than 0.0" (the zoom level is not set). -/
theorem C9_SetZoomFactor_epsilon (e : Engine) (factor : Double) :
    (Double.ge factor Double.epsilon = true →
      WebContents.SetZoomFactor e factor
        = [Effect.ZoomControllerSetZoomLevel (e.ZoomFactorToZoomLevel factor)]) ∧
    (Double.lt factor Double.epsilon = true →
      WebContents.SetZoomFactor e factor
        = [Effect.ThrowError "'zoomFactor' must be a double greater than 0.0"]) := by
  constructor
  · intro h
    simp [WebContents.SetZoomFactor, WebContents.SetZoomLevel, Double.lt_false_of_ge h]
  · intro h
    simp [WebContents.SetZoomFactor, h]

/-- C9 amended, at concrete inputs: the factor 2 is accepted and the factor 0
is rejected. -/
theorem C9_SetZoomFactor_epsilon_witness :
    WebContents.SetZoomFactor sampleEngine (Double.finite 2)
      = [Effect.ZoomControllerSetZoomLevel (Double.finite 2)] ∧
    WebContents.SetZoomFactor sampleEngine (Double.finite 0)
      = [Effect.ThrowError "'zoomFactor' must be a double greater than 0.0"] :=
  ⟨(C9_SetZoomFactor_epsilon sampleEngine (Double.finite 2)).1
      (by simp only [Double.ge, Double.epsilon, decide_eq_true_eq]; norm_num),
   (C9_SetZoomFactor_epsilon sampleEngine (Double.finite 0)).2
      (by simp only [Double.lt, Double.epsilon, decide_eq_true_eq]; norm_num)⟩

theorem SetStringKey_FindStringKey (d : DictionaryValue) (key value : String) :
    (d.SetStringKey key value).FindStringKey key = some value := by
  simp [DictionaryValue.SetStringKey, DictionaryValue.FindStringKey, List.lookup]

/-- C10: in `OnGetDefaultPrinter` the printer used is `device_name` when it is
non-empty and `default_printer` otherwise.  If that name is empty or
`IsDeviceNameValid` rejects it, the only call made is one run of the print
callback with (false, "no valid printers available") when a callback is
present (none otherwise), and `PrintNow` is never called; otherwise the only
call made is one `PrintNow`, whose settings carry that name under the
device-name key, and the callback is handed on, not run. -/
theorem C10_OnGetDefaultPrinter (e : Engine) (self : WebContents)
    (print_settings : DictionaryValue) (print_callback : Option Nat)
    (device_name : String) (silent : Bool) (default_printer : String) :
    (((if device_name.isEmpty then default_printer else device_name).isEmpty = true ∨
        WebContents.IsDeviceNameValid e
          (if device_name.isEmpty then default_printer else device_name) = false) →
      WebContents.OnGetDefaultPrinter e self print_settings print_callback device_name
          silent default_printer
        = (match print_callback with
            | some cb => [Effect.RunPrintCallback cb false "no valid printers available"]
            | none => []) ∧
      countRunPrintCallback
          (WebContents.OnGetDefaultPrinter e self print_settings print_callback device_name
            silent default_printer)
        = (if print_callback.isSome then 1 else 0) ∧
      countPrintNow
          (WebContents.OnGetDefaultPrinter e self print_settings print_callback device_name
            silent default_printer) = 0) ∧
    ((if device_name.isEmpty then default_printer else device_name).isEmpty = false →
      WebContents.IsDeviceNameValid e
          (if device_name.isEmpty then default_printer else device_name) = true →
      ∃ rfh settings,
        WebContents.OnGetDefaultPrinter e self print_settings print_callback device_name
            silent default_printer
          = [Effect.PrintNow rfh rfh.routingID silent settings print_callback] ∧
        settings.FindStringKey e.kSettingDeviceName
          = some (if device_name.isEmpty then default_printer else device_name) ∧
        countPrintNow
          (WebContents.OnGetDefaultPrinter e self print_settings print_callback device_name
            silent default_printer) = 1 ∧
        countRunPrintCallback
          (WebContents.OnGetDefaultPrinter e self print_settings print_callback device_name
            silent default_printer) = 0) := by
  constructor
  · intro h
    have hg : ((if device_name.isEmpty then default_printer else device_name).isEmpty ||
        !WebContents.IsDeviceNameValid e
          (if device_name.isEmpty then default_printer else device_name)) = true := by
      rcases h with h | h <;> simp [h]
    have key : WebContents.OnGetDefaultPrinter e self print_settings print_callback
        device_name silent default_printer
        = (match print_callback with
            | some cb => [Effect.RunPrintCallback cb false "no valid printers available"]
            | none => []) := by
      unfold WebContents.OnGetDefaultPrinter
      simp only [hg, if_true]
    rw [key]
    cases print_callback <;> simp [countRunPrintCallback, countPrintNow]
  · intro h1 h2
    have hg : ((if device_name.isEmpty then default_printer else device_name).isEmpty ||
        !WebContents.IsDeviceNameValid e
          (if device_name.isEmpty then default_printer else device_name)) = false := by
      simp [h1, h2]
    have key : ∃ rfh, WebContents.OnGetDefaultPrinter e self print_settings print_callback
        device_name silent default_printer
        = [Effect.PrintNow rfh rfh.routingID silent
            (print_settings.SetStringKey e.kSettingDeviceName
              (if device_name.isEmpty then default_printer else device_name))
            print_callback] := by
      unfold WebContents.OnGetDefaultPrinter
      simp only [hg]
      exact ⟨_, rfl⟩
    obtain ⟨rfh, hk⟩ := key
    refine ⟨rfh, _, hk, SetStringKey_FindStringKey _ _ _, ?_, ?_⟩
    · rw [hk]; simp [countPrintNow]
    · rw [hk]; simp [countRunPrintCallback]

/-- C10 at concrete inputs (a Windows lookup that knows the printer "Office"):
with no device name and no default printer the callback 4 is run once with the
failure; with the unknown device "Lab" likewise; with the known default
printer "Office" `PrintNow` is called once with the device name set. -/
theorem C10_OnGetDefaultPrinter_witness :
    WebContents.OnGetDefaultPrinter sampleEngine sampleContents [] (some 4) "" true ""
      = [Effect.RunPrintCallback 4 false "no valid printers available"] ∧
    WebContents.OnGetDefaultPrinter sampleEngine sampleContents [] (some 4) "Lab" true "Office"
      = [Effect.RunPrintCallback 4 false "no valid printers available"] ∧
    (∃ rfh settings,
      WebContents.OnGetDefaultPrinter sampleEngine sampleContents [] (some 4) "" true "Office"
        = [Effect.PrintNow rfh rfh.routingID true settings (some 4)] ∧
      settings.FindStringKey "deviceName" = some "Office") :=
  ⟨((C10_OnGetDefaultPrinter sampleEngine sampleContents [] (some 4) "" true "").1
      (Or.inl (by decide))).1,
   ((C10_OnGetDefaultPrinter sampleEngine sampleContents [] (some 4) "Lab" true "Office").1
      (Or.inr (by decide))).1,
   match (C10_OnGetDefaultPrinter sampleEngine sampleContents [] (some 4) "" true "Office").2
      (by decide) (by decide) with
   | ⟨rfh, settings, h1, h2, _, _⟩ => ⟨rfh, settings, h1, h2⟩⟩

/-! ## Theorems: `native_window_views_win.cc` -/

theorem PreHandleMSG_sizing (os : WinEnv) (self : NativeWindowViews) (w_param : Nat)
    (l_param : Int) (rect : RECT) (hb : self.block_chromium_message_handler_ = false) :
    NativeWindowViews.PreHandleMSG os self WM_SIZING w_param l_param rect
      = if os.willResize rect = true then
          ⟨true, self, os.GetWindowRect self.hwnd, none,
            [WinEffect.NotifyWindowMessage WM_SIZING w_param l_param,
             WinEffect.NotifyWindowWillResize rect]⟩
        else
          ⟨false, self, rect, none,
            [WinEffect.NotifyWindowMessage WM_SIZING w_param l_param,
             WinEffect.NotifyWindowWillResize rect]⟩ := by
  simp only [NativeWindowViews.PreHandleMSG]
  rw [if_neg (by simp [hb]), if_neg (by decide), if_neg (by decide), if_neg (by decide),
    if_pos trivial]
  rfl

theorem PreHandleMSG_moving (os : WinEnv) (self : NativeWindowViews) (w_param : Nat)
    (l_param : Int) (rect : RECT) (hb : self.block_chromium_message_handler_ = false) :
    NativeWindowViews.PreHandleMSG os self WM_MOVING w_param l_param rect
      = if (!self.movable_ || os.willMove rect) = true then
          ⟨true, self, os.GetWindowRect self.hwnd, none,
            [WinEffect.NotifyWindowMessage WM_MOVING w_param l_param,
             WinEffect.NotifyWindowWillMove rect]⟩
        else
          ⟨false, self, rect, none,
            [WinEffect.NotifyWindowMessage WM_MOVING w_param l_param,
             WinEffect.NotifyWindowWillMove rect]⟩ := by
  simp only [NativeWindowViews.PreHandleMSG]
  rw [if_neg (by simp [hb]), if_neg (by decide), if_neg (by decide), if_neg (by decide),
    if_neg (by decide), if_neg (by decide), if_pos trivial]
  rfl

theorem PreHandleMSG_command (os : WinEnv) (self : NativeWindowViews) (w_param : Nat)
    (l_param : Int) (rect : RECT) (hb : self.block_chromium_message_handler_ = false) :
    NativeWindowViews.PreHandleMSG os self WM_COMMAND w_param l_param rect
      = if HIWORD w_param = THBN_CLICKED then
          ⟨os.HandleThumbarButtonEvent (LOWORD w_param), self, rect, none,
            [WinEffect.NotifyWindowMessage WM_COMMAND w_param l_param]⟩
        else
          ⟨false, self, rect, none,
            [WinEffect.NotifyWindowMessage WM_COMMAND w_param l_param]⟩ := by
  simp only [NativeWindowViews.PreHandleMSG]
  rw [if_neg (by simp [hb]), if_neg (by decide), if_neg (by decide), if_pos trivial]

theorem PreHandleMSG_other (os : WinEnv) (self : NativeWindowViews) (message w_param : Nat)
    (l_param : Int) (rect : RECT) (hb : self.block_chromium_message_handler_ = false)
    (h1 : message ≠ WM_SIZING) (h2 : message ≠ WM_MOVING) (h3 : message ≠ WM_COMMAND) :
    (NativeWindowViews.PreHandleMSG os self message w_param l_param rect).ret = false := by
  simp only [NativeWindowViews.PreHandleMSG]
  rw [if_neg (by simp [hb])]
  split_ifs <;> first | rfl | contradiction | (split <;> rfl)

/-- C11: when `block_chromium_message_handler_` is false on entry,
`PreHandleMSG` returns true exactly when (a) the message is WM_SIZING and the
will-resize observers prevented the default, or (b) the message is WM_MOVING
and the window is not movable or the will-move observers prevented the
default, or (c) the message is WM_COMMAND with HIWORD(w_param) = THBN_CLICKED
and `HandleThumbarButtonEvent(LOWORD(w_param))` returned true; in cases (a)
and (b) the RECT at `l_param` holds the window's current rectangle afterwards;
for every message other than these three it returns false. -/
theorem C11_PreHandleMSG (os : WinEnv) (self : NativeWindowViews) (message w_param : Nat)
    (l_param : Int) (rect : RECT) (hb : self.block_chromium_message_handler_ = false) :
    ((NativeWindowViews.PreHandleMSG os self message w_param l_param rect).ret = true ↔
      (message = WM_SIZING ∧ os.willResize rect = true) ∨
      (message = WM_MOVING ∧ (self.movable_ = false ∨ os.willMove rect = true)) ∨
      (message = WM_COMMAND ∧ HIWORD w_param = THBN_CLICKED ∧
        os.HandleThumbarButtonEvent (LOWORD w_param) = true)) ∧
    (message = WM_SIZING → os.willResize rect = true →
      (NativeWindowViews.PreHandleMSG os self message w_param l_param rect).rect
        = os.GetWindowRect self.hwnd) ∧
    (message = WM_MOVING → (self.movable_ = false ∨ os.willMove rect = true) →
      (NativeWindowViews.PreHandleMSG os self message w_param l_param rect).rect
        = os.GetWindowRect self.hwnd) ∧
    (message ≠ WM_SIZING → message ≠ WM_MOVING → message ≠ WM_COMMAND →
      (NativeWindowViews.PreHandleMSG os self message w_param l_param rect).ret = false) := by
  refine ⟨?_, ?_, ?_, PreHandleMSG_other os self message w_param l_param rect hb⟩
  · by_cases hS : message = WM_SIZING
    · subst hS
      rw [PreHandleMSG_sizing os self w_param l_param rect hb]
      cases hp : os.willResize rect <;> simp [WM_COMMAND, WM_SIZING, WM_MOVING]
    · by_cases hM : message = WM_MOVING
      · subst hM
        rw [PreHandleMSG_moving os self w_param l_param rect hb]
        cases hp : os.willMove rect <;> cases hm : self.movable_ <;>
          simp [WM_COMMAND, WM_SIZING, WM_MOVING]
      · by_cases hC : message = WM_COMMAND
        · subst hC
          rw [PreHandleMSG_command os self w_param l_param rect hb]
          by_cases hw : HIWORD w_param = THBN_CLICKED <;>
            simp [hw, WM_COMMAND, WM_SIZING, WM_MOVING]
        · simp [PreHandleMSG_other os self message w_param l_param rect hb hS hM hC,
            hS, hM, hC]
  · intro hm hp
    subst hm
    rw [PreHandleMSG_sizing os self w_param l_param rect hb, if_pos hp]
  · intro hm hp
    subst hm
    have hg : (!self.movable_ || os.willMove rect) = true := by
      rcases hp with h | h <;> simp [h]
    rw [PreHandleMSG_moving os self w_param l_param rect hb, if_pos hg]

/-- C11 at the sample window: WM_SIZING with a preventing observer returns
true and stores the window rectangle; WM_MOVING on a movable window whose
observers do not object returns false; the thumbar click on button 7 returns
true; WM_SIZE returns false. -/
theorem C11_PreHandleMSG_witness :
    ((NativeWindowViews.PreHandleMSG sampleWin sampleWindow WM_SIZING 0 0 ⟨0, 0, 5, 5⟩).ret
        = true ∧
      (NativeWindowViews.PreHandleMSG sampleWin sampleWindow WM_SIZING 0 0 ⟨0, 0, 5, 5⟩).rect
        = ⟨10, 20, 110, 220⟩) ∧
    ¬ (NativeWindowViews.PreHandleMSG sampleWin sampleWindow WM_MOVING 0 0 ⟨0, 0, 5, 5⟩).ret
        = true ∧
    (NativeWindowViews.PreHandleMSG sampleWin sampleWindow WM_COMMAND (0x1800 * 2 ^ 16 + 7) 0
        ⟨0, 0, 5, 5⟩).ret = true ∧
    (NativeWindowViews.PreHandleMSG sampleWin sampleWindow WM_SIZE 2 0 ⟨0, 0, 5, 5⟩).ret
        = false :=
  ⟨⟨(C11_PreHandleMSG sampleWin sampleWindow WM_SIZING 0 0 ⟨0, 0, 5, 5⟩ rfl).1.mpr
        (Or.inl ⟨rfl, rfl⟩),
    (C11_PreHandleMSG sampleWin sampleWindow WM_SIZING 0 0 ⟨0, 0, 5, 5⟩ rfl).2.1 rfl rfl⟩,
   fun h => by
    have h2 := (C11_PreHandleMSG sampleWin sampleWindow WM_MOVING 0 0 ⟨0, 0, 5, 5⟩ rfl).1.mp h
    revert h2
    decide,
   (C11_PreHandleMSG sampleWin sampleWindow WM_COMMAND (0x1800 * 2 ^ 16 + 7) 0
        ⟨0, 0, 5, 5⟩ rfl).1.mpr (Or.inr (Or.inr ⟨rfl, by decide, by decide⟩)),
   (C11_PreHandleMSG sampleWin sampleWindow WM_SIZE 2 0 ⟨0, 0, 5, 5⟩ rfl).2.2.2
      (by decide) (by decide) (by decide)⟩

theorem mem_setInsert (x y : Nat) (s : List Nat) : y ∈ setInsert x s ↔ y = x ∨ y ∈ s := by
  unfold setInsert
  split_ifs with h
  · constructor
    · intro hy; exact Or.inr hy
    · rintro (rfl | hy)
      · exact h
      · exact hy
  · simp [List.mem_orderedInsert]

theorem mem_setErase (x y : Nat) (s : List Nat) : y ∈ setErase x s ↔ y ∈ s ∧ y ≠ x := by
  simp [setErase, List.mem_filter]

theorem enumChildWindows_flag (os : WinEnv) (children : List Nat) :
    ∀ v : NativeWindowViews,
      (NativeWindowViews.enumChildWindows os v children).forwarding_mouse_messages_
        = v.forwarding_mouse_messages_ := by
  induction children with
  | nil => intro v; rfl
  | cons c rest ih =>
    intro v
    simp only [NativeWindowViews.enumChildWindows,
      NativeWindowViews.FindLegacyWinFromChildWindowsProc]
    split_ifs <;> first | rfl | (rw [ih])

theorem findLegacyWindow_flag (os : WinEnv) (v : NativeWindowViews) :
    (NativeWindowViews.findLegacyWindow os v).forwarding_mouse_messages_
      = v.forwarding_mouse_messages_ := by
  unfold NativeWindowViews.findLegacyWindow
  split_ifs
  · exact enumChildWindows_flag os _ v
  · rfl

theorem SetForwardMouseMessages_same (os : WinEnv) (g : ForwardingState) (a : Nat)
    (forward : Bool) (h : (g.windows a).forwarding_mouse_messages_ = forward) :
    NativeWindowViews.SetForwardMouseMessages os g a forward
      = (⟨Function.update g.windows a (NativeWindowViews.findLegacyWindow os (g.windows a)),
          g.forwarding_windows_, g.mouse_hook_⟩, []) := by
  have hf := findLegacyWindow_flag os (g.windows a)
  rw [h] at hf
  simp only [NativeWindowViews.SetForwardMouseMessages, hf]
  cases forward <;> simp

theorem SetForwardMouseMessages_invariant (os : WinEnv) (hh : os.SetWindowsHookEx ≠ 0)
    (g : ForwardingState) (hinv : ForwardingInvariant g) (a : Nat) (forward : Bool) :
    ForwardingInvariant (NativeWindowViews.SetForwardMouseMessages os g a forward).1 := by
  obtain ⟨hmem, hhook⟩ := hinv
  have hf := findLegacyWindow_flag os (g.windows a)
  by_cases hsame : (g.windows a).forwarding_mouse_messages_ = forward
  · rw [SetForwardMouseMessages_same os g a forward hsame]
    refine ⟨fun w => ?_, hhook⟩
    by_cases hw : w = a
    · subst hw
      simp [hmem, hf]
    · simp [Function.update_apply, hw, hmem]
  · cases forward
    · -- the flag is true and forwarding is switched off
      have hflag : (g.windows a).forwarding_mouse_messages_ = true := by
        cases hc : (g.windows a).forwarding_mouse_messages_
        · exact absurd hc hsame
        · rfl
      rw [hflag] at hf
      have hthis : a ∈ g.forwarding_windows_ := (hmem a).mpr hflag
      have hne : g.mouse_hook_ ≠ 0 := hhook.mpr (List.ne_nil_of_mem hthis)
      simp only [NativeWindowViews.SetForwardMouseMessages, hf]
      by_cases hl : (setErase a g.forwarding_windows_).length = 0
      · have hnil : setErase a g.forwarding_windows_ = [] := List.length_eq_zero.mp hl
        simp only [hl]
        refine ⟨fun w => ?_, ?_⟩
        · by_cases hw : w = a
          · subst hw
            simp [hnil]
          · have hme := mem_setErase a w g.forwarding_windows_
            rw [hnil] at hme
            have hnot : w ∉ g.forwarding_windows_ := fun hin => by
              simpa using hme.mpr ⟨hin, hw⟩
            have hfw : ¬ (g.windows w).forwarding_mouse_messages_ = true :=
              fun h => hnot ((hmem w).mpr h)
            simp [Function.update_apply, hw, hfw, hnil]
        · simp [hnil]
      · have hnn : setErase a g.forwarding_windows_ ≠ [] := by
          intro hc
          exact hl (by rw [hc]; rfl)
        simp only [hl]
        refine ⟨fun w => ?_, ?_⟩
        · by_cases hw : w = a
          · subst hw
            simp [mem_setErase]
          · simp [Function.update_apply, hw, mem_setErase, hmem]
        · simp [hnn, hne]
    · -- the flag is false and forwarding is switched on
      have hflag : (g.windows a).forwarding_mouse_messages_ = false := by
        cases hc : (g.windows a).forwarding_mouse_messages_
        · rfl
        · exact absurd hc hsame
      rw [hflag] at hf
      have hins : setInsert a g.forwarding_windows_ ≠ [] :=
        List.ne_nil_of_mem ((mem_setInsert a a _).mpr (Or.inl rfl))
      simp only [NativeWindowViews.SetForwardMouseMessages, hf]
      by_cases hk : g.mouse_hook_ = 0
      · simp only [hk]
        refine ⟨fun w => ?_, ?_⟩
        · by_cases hw : w = a
          · subst hw
            simp [mem_setInsert]
          · simp [Function.update_apply, hw, mem_setInsert, hmem]
        · simp [hins, hh]
      · simp only [hk]
        refine ⟨fun w => ?_, ?_⟩
        · by_cases hw : w = a
          · subst hw
            simp [mem_setInsert]
          · simp [Function.update_apply, hw, mem_setInsert, hmem]
        · simp [hins, hk]

theorem runSetForwardMouseMessages_invariant (os : WinEnv) (hh : os.SetWindowsHookEx ≠ 0)
    (calls : List (Nat × Bool)) :
    ∀ g : ForwardingState, ForwardingInvariant g →
      ForwardingInvariant (NativeWindowViews.runSetForwardMouseMessages os g calls) := by
  induction calls with
  | nil => intro g hg; exact hg
  | cons c rest ih =>
    intro g hg
    simp only [NativeWindowViews.runSetForwardMouseMessages]
    exact ih _ (SetForwardMouseMessages_invariant os hh g hg c.1 c.2)

/-- C12: starting from the state in which no window forwards mouse messages
(every flag false, `forwarding_windows_` empty, `mouse_hook_` null) and with a
`SetWindowsHookEx` that succeeds, after any sequence of
`SetForwardMouseMessages` calls on any windows a window is in
`forwarding_windows_` exactly when its `forwarding_mouse_messages_` is true,
and `mouse_hook_` is non-null exactly when `forwarding_windows_` is non-empty;
a further call with the value the flag already has leaves the set and the hook
as they are and neither installs nor removes a window subclass. -/
theorem C12_forwarding_invariant (os : WinEnv) (hh : os.SetWindowsHookEx ≠ 0)
    (g0 : ForwardingState) (hset : g0.forwarding_windows_ = []) (hhook : g0.mouse_hook_ = 0)
    (hflags : ∀ w, (g0.windows w).forwarding_mouse_messages_ = false)
    (calls : List (Nat × Bool)) :
    (∀ w, w ∈ (NativeWindowViews.runSetForwardMouseMessages os g0 calls).forwarding_windows_ ↔
      ((NativeWindowViews.runSetForwardMouseMessages os g0 calls).windows w
        ).forwarding_mouse_messages_ = true) ∧
    ((NativeWindowViews.runSetForwardMouseMessages os g0 calls).mouse_hook_ ≠ 0 ↔
      (NativeWindowViews.runSetForwardMouseMessages os g0 calls).forwarding_windows_ ≠ []) ∧
    (∀ a forward,
      ((NativeWindowViews.runSetForwardMouseMessages os g0 calls).windows a
        ).forwarding_mouse_messages_ = forward →
      (NativeWindowViews.SetForwardMouseMessages os
          (NativeWindowViews.runSetForwardMouseMessages os g0 calls) a forward).1.forwarding_windows_
        = (NativeWindowViews.runSetForwardMouseMessages os g0 calls).forwarding_windows_ ∧
      (NativeWindowViews.SetForwardMouseMessages os
          (NativeWindowViews.runSetForwardMouseMessages os g0 calls) a forward).1.mouse_hook_
        = (NativeWindowViews.runSetForwardMouseMessages os g0 calls).mouse_hook_ ∧
      touchesSubclass
        (NativeWindowViews.SetForwardMouseMessages os
          (NativeWindowViews.runSetForwardMouseMessages os g0 calls) a forward).2 = false) := by
  have h0 : ForwardingInvariant g0 := by
    refine ⟨fun w => ?_, ?_⟩
    · simp [hset, hflags w]
    · simp [hset, hhook]
  have hinv := runSetForwardMouseMessages_invariant os hh calls g0 h0
  refine ⟨hinv.1, hinv.2, fun a forward hsame => ?_⟩
  rw [SetForwardMouseMessages_same os _ a forward hsame]
  exact ⟨rfl, rfl, rfl⟩

/-- C12 at concrete inputs: switch forwarding on for windows 1 and 2, then off
for window 1.  Window 2 alone is in the set and is the one whose flag is
true, the hook is installed, and switching window 2 on again changes
nothing. -/
theorem C12_forwarding_invariant_witness :
    sampleWin.SetWindowsHookEx ≠ 0 ∧
    (NativeWindowViews.runSetForwardMouseMessages sampleWin startState
        [(1, true), (2, true), (1, false)]).forwarding_windows_ = [2] ∧
    (2 ∈ (NativeWindowViews.runSetForwardMouseMessages sampleWin startState
          [(1, true), (2, true), (1, false)]).forwarding_windows_ ↔
      ((NativeWindowViews.runSetForwardMouseMessages sampleWin startState
          [(1, true), (2, true), (1, false)]).windows 2).forwarding_mouse_messages_ = true) ∧
    (1 ∈ (NativeWindowViews.runSetForwardMouseMessages sampleWin startState
          [(1, true), (2, true), (1, false)]).forwarding_windows_ ↔
      ((NativeWindowViews.runSetForwardMouseMessages sampleWin startState
          [(1, true), (2, true), (1, false)]).windows 1).forwarding_mouse_messages_ = true) ∧
    ((NativeWindowViews.runSetForwardMouseMessages sampleWin startState
          [(1, true), (2, true), (1, false)]).mouse_hook_ ≠ 0 ↔
      (NativeWindowViews.runSetForwardMouseMessages sampleWin startState
          [(1, true), (2, true), (1, false)]).forwarding_windows_ ≠ []) ∧
    (NativeWindowViews.SetForwardMouseMessages sampleWin
        (NativeWindowViews.runSetForwardMouseMessages sampleWin startState
          [(1, true), (2, true), (1, false)]) 2 true).1.forwarding_windows_
      = (NativeWindowViews.runSetForwardMouseMessages sampleWin startState
          [(1, true), (2, true), (1, false)]).forwarding_windows_ :=
  ⟨by decide, by decide,
   (C12_forwarding_invariant sampleWin (by decide) startState rfl rfl (fun _ => rfl)
      [(1, true), (2, true), (1, false)]).1 2,
   (C12_forwarding_invariant sampleWin (by decide) startState rfl rfl (fun _ => rfl)
      [(1, true), (2, true), (1, false)]).1 1,
   (C12_forwarding_invariant sampleWin (by decide) startState rfl rfl (fun _ => rfl)
      [(1, true), (2, true), (1, false)]).2.1,
   ((C12_forwarding_invariant sampleWin (by decide) startState rfl rfl (fun _ => rfl)
      [(1, true), (2, true), (1, false)]).2.2 2 true (by decide)).1⟩

theorem postedMessages_forward (os : WinEnv) (g : ForwardingState) (pt : POINT)
    (ws : List Nat) :
    postedMessages (ws.flatMap (NativeWindowViews.forwardMouseMove os g pt))
      = (ws.filter (cursorInClient os g pt)).map fun window =>
          ((g.windows window).legacy_window_, WM_MOUSEMOVE, 0,
            MAKELPARAM (os.ScreenToClient (g.windows window).legacy_window_ pt).x
              (os.ScreenToClient (g.windows window).legacy_window_ pt).y) := by
  induction ws with
  | nil => rfl
  | cons w rest ih =>
    have hsplit : postedMessages
        ((w :: rest).flatMap (NativeWindowViews.forwardMouseMove os g pt))
        = postedMessages (NativeWindowViews.forwardMouseMove os g pt w)
          ++ postedMessages (rest.flatMap (NativeWindowViews.forwardMouseMove os g pt)) := by
      simp [postedMessages, List.flatMap_cons, List.filterMap_append]
    rw [hsplit, ih]
    by_cases hc : cursorInClient os g pt w = true
    · have hc2 := hc
      unfold cursorInClient at hc2
      simp [List.filter_cons, hc, NativeWindowViews.forwardMouseMove, hc2, postedMessages]
    · have hc2 := hc
      unfold cursorInClient at hc2
      simp [List.filter_cons, hc, NativeWindowViews.forwardMouseMove, hc2, postedMessages]

/-- C13: `MouseHookProc` returns what `CallNextHookEx` returns and calls it
exactly once, with a null hook and its own three arguments.  It posts nothing
unless `n_code >= 0` and `w_param == WM_MOUSEMOVE`; in that case its
`PostMessage` calls are, in set order, one per window of `forwarding_windows_`
whose legacy window's client rectangle contains the cursor, each to that
legacy window with WM_MOUSEMOVE, wParam 0 and lParam the MAKELPARAM of the
cursor position in client coordinates.  `SubclassProc` returns 0 without
calling `DefSubclassProc` exactly for WM_MOUSELEAVE while the window is
forwarding mouse messages, and otherwise returns what `DefSubclassProc`
returns. -/
theorem C13_MouseHookProc (os : WinEnv) (g : ForwardingState) (n_code : Int)
    (w_param : Nat) (l_param : Int) (pt : POINT) (window : NativeWindowViews)
    (hwnd msg sw : Nat) (sl : Int) :
    (NativeWindowViews.MouseHookProc os g n_code w_param l_param pt).1
      = os.CallNextHookEx n_code w_param l_param ∧
    nextHookCalls (NativeWindowViews.MouseHookProc os g n_code w_param l_param pt).2
      = [(0, n_code, w_param, l_param)] ∧
    (¬ (0 ≤ n_code ∧ w_param = WM_MOUSEMOVE) →
      postedMessages (NativeWindowViews.MouseHookProc os g n_code w_param l_param pt).2 = []) ∧
    (0 ≤ n_code → w_param = WM_MOUSEMOVE →
      postedMessages (NativeWindowViews.MouseHookProc os g n_code w_param l_param pt).2
        = (g.forwarding_windows_.filter (cursorInClient os g pt)).map fun window =>
            ((g.windows window).legacy_window_, WM_MOUSEMOVE, 0,
              MAKELPARAM (os.ScreenToClient (g.windows window).legacy_window_ pt).x
                (os.ScreenToClient (g.windows window).legacy_window_ pt).y)) ∧
    (((NativeWindowViews.SubclassProc os window hwnd msg sw sl).1 = 0 ∧
        (NativeWindowViews.SubclassProc os window hwnd msg sw sl).2 = []) ↔
      (msg = WM_MOUSELEAVE ∧ window.forwarding_mouse_messages_ = true)) ∧
    (¬ (msg = WM_MOUSELEAVE ∧ window.forwarding_mouse_messages_ = true) →
      NativeWindowViews.SubclassProc os window hwnd msg sw sl
        = (os.DefSubclassProc hwnd msg sw sl, [WinEffect.DefSubclassProc hwnd msg sw sl])) := by
  have hnoPost : ∀ ws : List Nat,
      nextHookCalls (ws.flatMap (NativeWindowViews.forwardMouseMove os g pt)) = [] := by
    intro ws
    induction ws with
    | nil => rfl
    | cons w rest ih =>
      have hsplit : nextHookCalls
          ((w :: rest).flatMap (NativeWindowViews.forwardMouseMove os g pt))
          = nextHookCalls (NativeWindowViews.forwardMouseMove os g pt w)
            ++ nextHookCalls (rest.flatMap (NativeWindowViews.forwardMouseMove os g pt)) := by
        simp [nextHookCalls, List.flatMap_cons, List.filterMap_append]
      rw [hsplit, ih]
      unfold NativeWindowViews.forwardMouseMove
      simp only []
      split_ifs <;> rfl
  refine ⟨?_, ?_, ?_, ?_, ?_, ?_⟩
  · unfold NativeWindowViews.MouseHookProc
    split_ifs <;> rfl
  · unfold NativeWindowViews.MouseHookProc
    by_cases hn : n_code < 0
    · simp [hn, nextHookCalls]
    · by_cases hw : w_param = WM_MOUSEMOVE
      · have := hnoPost g.forwarding_windows_
        simp only [hn, hw, if_true, if_false]
        unfold nextHookCalls at this ⊢
        rw [List.filterMap_append, this]
        rfl
      · simp [hn, hw, nextHookCalls]
  · intro h
    unfold NativeWindowViews.MouseHookProc
    by_cases hn : n_code < 0
    · simp [hn, postedMessages]
    · have hw : w_param ≠ WM_MOUSEMOVE := fun hw => h ⟨not_lt.mp hn, hw⟩
      simp [hn, hw, postedMessages]
  · intro hn hw
    have hn2 : ¬ n_code < 0 := not_lt.mpr hn
    have key : (NativeWindowViews.MouseHookProc os g n_code w_param l_param pt).2
        = g.forwarding_windows_.flatMap (NativeWindowViews.forwardMouseMove os g pt)
          ++ [WinEffect.CallNextHookEx 0 n_code w_param l_param] := by
      unfold NativeWindowViews.MouseHookProc
      simp only [hn2, hw, if_true, if_false]
    rw [key]
    have happ : postedMessages
        (g.forwarding_windows_.flatMap (NativeWindowViews.forwardMouseMove os g pt)
          ++ [WinEffect.CallNextHookEx 0 n_code w_param l_param])
        = postedMessages
            (g.forwarding_windows_.flatMap (NativeWindowViews.forwardMouseMove os g pt)) := by
      simp [postedMessages, List.filterMap_append]
    rw [happ, postedMessages_forward]
  · unfold NativeWindowViews.SubclassProc
    by_cases hm : msg = WM_MOUSELEAVE <;>
      cases hf : window.forwarding_mouse_messages_ <;> simp [hm, hf]
  · intro h
    unfold NativeWindowViews.SubclassProc
    by_cases hm : msg = WM_MOUSELEAVE
    · have hf : window.forwarding_mouse_messages_ = false := by
        cases hc : window.forwarding_mouse_messages_
        · rfl
        · exact absurd ⟨hm, hc⟩ h
      simp [hm, hf]
    · simp [hm]

/-- C13 at concrete inputs: with the cursor at (50, 60), inside the client
rectangle of legacy window 41 only, a WM_MOUSEMOVE hook call posts one message,
to window 41, with lParam MAKELPARAM(40, 40); a hook call with a negative code
posts nothing; WM_MOUSELEAVE on a forwarding window is swallowed by
`SubclassProc`, WM_SIZE is passed on. -/
theorem C13_MouseHookProc_witness :
    postedMessages
        (NativeWindowViews.MouseHookProc sampleWin sampleForwarding 0 WM_MOUSEMOVE 0
          ⟨50, 60⟩).2
      = [(41, WM_MOUSEMOVE, 0, 40 + 40 * 2 ^ 16)] ∧
    postedMessages
        (NativeWindowViews.MouseHookProc sampleWin sampleForwarding (-1) WM_MOUSEMOVE 0
          ⟨50, 60⟩).2 = [] ∧
    ((NativeWindowViews.SubclassProc sampleWin (sampleForwarding.windows 1) 41
          WM_MOUSELEAVE 0 0).1 = 0 ∧
      (NativeWindowViews.SubclassProc sampleWin (sampleForwarding.windows 1) 41
          WM_MOUSELEAVE 0 0).2 = []) ∧
    NativeWindowViews.SubclassProc sampleWin (sampleForwarding.windows 1) 41 WM_SIZE 0 0
      = (3, [WinEffect.DefSubclassProc 41 WM_SIZE 0 0]) :=
  ⟨((C13_MouseHookProc sampleWin sampleForwarding 0 WM_MOUSEMOVE 0 ⟨50, 60⟩
        (sampleForwarding.windows 1) 41 WM_MOUSELEAVE 0 0).2.2.2.1 (by decide) rfl).trans
      (by decide),
   (C13_MouseHookProc sampleWin sampleForwarding (-1) WM_MOUSEMOVE 0 ⟨50, 60⟩
        (sampleForwarding.windows 1) 41 WM_MOUSELEAVE 0 0).2.2.1 (by decide),
   (C13_MouseHookProc sampleWin sampleForwarding 0 WM_MOUSEMOVE 0 ⟨50, 60⟩
        (sampleForwarding.windows 1) 41 WM_MOUSELEAVE 0 0).2.2.2.2.1.mpr ⟨rfl, rfl⟩,
   (C13_MouseHookProc sampleWin sampleForwarding 0 WM_MOUSEMOVE 0 ⟨50, 60⟩
        (sampleForwarding.windows 1) 41 WM_SIZE 0 0).2.2.2.2.2 (by decide)⟩

end electron
